import Mathlib

set_option maxHeartbeats 1600000

/-!
Shallow embedding of the CRM backend's iClosed webhook ingestion core:
the permissive webhook controller variant, the secured webhook controller
variant, and the automation service, over the slice of the Prisma data model
they touch (User, Contact, Pipeline, PipelineStage, Deal, Activity,
WebhookLog, automation workflow rows, Task).

JavaScript values are modelled by `Js`; JavaScript exceptions by `JsErr`.
Every controller action is a function `M α = DB → Except JsErr α × DB`:
a thrown exception carries no rollback, so database writes performed before
a throw persist, exactly as with the shared relational store behind Prisma.
Storage calls go through `dbOp`, which can be made to fail by a fault
schedule carried in the state (`DB.faults`); an empty schedule models a
storage layer that never errors.
-/

/-- A JavaScript/JSON value.  `undef` is JavaScript's undefined (what a read
of an absent object property yields); numbers are modelled by integers, which
covers every numeric value the webhook payload claims exercise. -/
inductive Js where
  | undef : Js
  | null : Js
  | boolean : Bool → Js
  | num : Int → Js
  | str : String → Js
  | obj : List (String × Js) → Js
  | arr : List Js → Js

mutual

/-- Structural equality on `Js`.  The controllers apply `===` only to
primitive values (header secrets, event names, ids, stage names), where
structural equality agrees with JavaScript strict equality. -/
def Js.beq : Js → Js → Bool
  | .undef, .undef => true
  | .null, .null => true
  | .boolean a, .boolean b => a == b
  | .num a, .num b => a == b
  | .str a, .str b => a == b
  | .obj a, .obj b => Js.beqFields a b
  | .arr a, .arr b => Js.beqElems a b
  | _, _ => false

def Js.beqFields : List (String × Js) → List (String × Js) → Bool
  | [], [] => true
  | (k1, v1) :: t1, (k2, v2) :: t2 => k1 == k2 && Js.beq v1 v2 && Js.beqFields t1 t2
  | _, _ => false

def Js.beqElems : List Js → List Js → Bool
  | [], [] => true
  | a :: t1, b :: t2 => Js.beq a b && Js.beqElems t1 t2
  | _, _ => false

end

instance : BEq Js := ⟨Js.beq⟩

/-- JavaScript truthiness. -/
def Js.truthy : Js → Bool
  | .undef => false
  | .null => false
  | .boolean b => b
  | .num n => n != 0
  | .str s => s != ""
  | .obj _ => true
  | .arr _ => true

/-- Property read on a value known not to be null/undefined: an absent
property of an object reads as undefined; arrays expose `length`. -/
def Js.get : Js → String → Js
  | .obj fs, k => ((fs.find? (fun p => p.1 == k)).map Prod.snd).getD Js.undef
  | .arr l, k => if k == "length" then Js.num l.length else Js.undef
  | _, _ => Js.undef

/-- JavaScript `a || b`: the first operand if truthy, otherwise the second. -/
def jsOr (a b : Js) : Js := if a.truthy then a else b

/-- Does `t` occur as a contiguous sublist of the second argument? -/
def charsContain (t : List Char) : List Char → Bool
  | [] => t.isEmpty
  | c :: cs => t.isPrefixOf (c :: cs) || charsContain t cs

/-- JavaScript `String.prototype.includes`: does `t` occur inside `s`? -/
def strIncludes (s t : String) : Bool := charsContain t.data s.data

/-- JavaScript `String.prototype.toLowerCase` (character-wise lowering). -/
def strLower (s : String) : String := String.mk (s.data.map Char.toLower)

/-- JavaScript `String.prototype.trim`. -/
def strTrim (s : String) : String :=
  String.mk (((s.data.dropWhile Char.isWhitespace).reverse.dropWhile Char.isWhitespace).reverse)

/-- Splitting on single whitespace characters (empty tokens are filtered by
the caller, matching a split on a whitespace run). -/
def charsFields (cur : List Char) : List Char → List String
  | [] => [String.mk cur.reverse]
  | c :: cs => if c.isWhitespace then String.mk cur.reverse :: charsFields [] cs
               else charsFields (c :: cur) cs

mutual

/-- JavaScript string conversion, as used by template literals: exact on
primitives, approximate (but deterministic) on objects and arrays. -/
def Js.toDisplay : Js → String
  | .undef => "undefined"
  | .null => "null"
  | .boolean b => if b then "true" else "false"
  | .num n => toString n
  | .str s => s
  | .obj _ => "[object Object]"
  | .arr l => Js.displayElems l

def Js.displayElems : List Js → String
  | [] => ""
  | [x] => x.toDisplay
  | x :: xs => x.toDisplay ++ "," ++ Js.displayElems xs

end

mutual

/-- JSON.stringify, modelled as a deterministic serializer (string escaping
and undefined-member elision are simplified; the serialization only feeds the
abstract content-hash used for the permissive idempotency key, so only its
determinism in the payload matters). -/
def Js.stringify : Js → String
  | .undef => "undefined"
  | .null => "null"
  | .boolean b => if b then "true" else "false"
  | .num n => toString n
  | .str s => "\"" ++ s ++ "\""
  | .obj fs => "\x7b" ++ Js.stringifyFields fs ++ "\x7d"
  | .arr l => "[" ++ Js.stringifyElems l ++ "]"

def Js.stringifyFields : List (String × Js) → String
  | [] => ""
  | [(k, v)] => "\"" ++ k ++ "\":" ++ Js.stringify v
  | (k, v) :: fs => "\"" ++ k ++ "\":" ++ Js.stringify v ++ "," ++ Js.stringifyFields fs

def Js.stringifyElems : List Js → String
  | [] => ""
  | [v] => Js.stringify v
  | v :: vs => Js.stringify v ++ "," ++ Js.stringifyElems vs

end

/-- JavaScript exceptions distinguished by the webhook claims. -/
inductive JsErr where
  | typeError : String → JsErr
  | referenceError : String → JsErr
  | error : String → JsErr
deriving Repr, DecidableEq

def JsErr.message : JsErr → String
  | .typeError m => m
  | .referenceError m => m
  | .error m => m

/-- User row (the slice the webhook core reads). -/
structure User where
  id : String
  createdAt : Nat

/-- Contact row.  Fields written from payload values are kept as `Js`. -/
structure Contact where
  id : String
  firstName : Js
  lastName : Js
  email : Js
  phone : Js
  userId : String

structure Pipeline where
  id : String
  name : String
  userId : String

structure PipelineStage where
  id : String
  name : String
  order : Nat
  pipelineId : String

/-- Deal row; `data` is the opaque JSON provenance bag (null when the
creating call supplied none). -/
structure Deal where
  id : String
  title : Js
  value : Js
  stageId : Js
  pipelineId : String
  contactId : Js
  userId : String
  data : Js

structure Activity where
  id : String
  type : String
  note : String
  contactId : Js
  dealId : Js
  userId : String
  data : Js

/-- WebhookLog row: the permissive variant keys it by `idempotencyKey`, the
secured variant by `eventId`; each key column is unique. -/
structure WebhookLog where
  id : String
  idempotencyKey : Option String
  eventId : Option Js
  endpoint : String
  payload : Js
  status : Nat
  processedAt : String

/-- Automation workflow row with its included trigger event types and action
objects (actions are loosely-shaped JSON read dynamically by the service). -/
structure Workflow where
  id : String
  name : String
  isActive : Bool
  conditions : Js
  triggerEventTypes : List String
  actions : List Js

structure TaskRec where
  id : String
  title : Js
  description : Js
  dueDate : Js
  assignedTo : String
  contactId : String

/-- The shared relational store, plus the id counter and the storage fault
schedule (head flag consumed per storage call; empty means no faults). -/
structure DB where
  users : List User
  contacts : List Contact
  pipelines : List Pipeline
  pipelineStages : List PipelineStage
  deals : List Deal
  activities : List Activity
  webhookLogs : List WebhookLog
  workflows : List Workflow
  tasks : List TaskRec
  nextId : Nat
  faults : List Bool

/-- The effect monad of a request handler: state threading with JavaScript
exceptions that do not roll the state back. -/
def M (α : Type) : Type := DB → Except JsErr α × DB

def M.pure (a : α) : M α := fun db => (Except.ok a, db)

def M.bind (x : M α) (f : α → M β) : M β := fun db =>
  match x db with
  | (Except.ok a, db1) => f a db1
  | (Except.error e, db1) => (Except.error e, db1)

instance : Monad M where
  pure := M.pure
  bind := M.bind

def throwM (e : JsErr) : M α := fun db => (Except.error e, db)

/-- JavaScript try/catch: mutations made before the throw are kept. -/
def jsTry (x : M α) (h : JsErr → M α) : M α := fun db =>
  match x db with
  | (Except.ok a, db1) => (Except.ok a, db1)
  | (Except.error e, db1) => h e db1

def dbFault : JsErr := JsErr.error "Database connection failed"

/-- One Prisma storage call.  A `true` at the head of the fault schedule makes
the call throw; otherwise the pure transition `f` runs (itself able to throw,
e.g. unique-constraint or record-not-found errors). -/
def dbOp (f : DB → Except JsErr (α × DB)) : M α := fun db =>
  match db.faults with
  | true :: rest => (Except.error dbFault, { db with faults := rest })
  | false :: rest =>
      (match f { db with faults := rest } with
       | Except.ok (a, db1) => (Except.ok a, db1)
       | Except.error e => (Except.error e, { db with faults := rest }))
  | [] =>
      (match f db with
       | Except.ok (a, db1) => (Except.ok a, db1)
       | Except.error e => (Except.error e, db))

/-- A read-only Prisma call. -/
def dbFind (f : DB → α) : M α := dbOp (fun db => Except.ok (f db, db))

/-- Property read whose base may be nullish, throwing as JavaScript does. -/
def jsMember (base : Js) (k : String) : M Js :=
  match base with
  | .undef => throwM (JsErr.typeError ("Cannot read properties of undefined (reading " ++ k ++ ")"))
  | .null => throwM (JsErr.typeError ("Cannot read properties of null (reading " ++ k ++ ")"))
  | b => M.pure (b.get k)

/-- Optional chaining `base?.k`. -/
def jsMemberOpt (base : Js) (k : String) : Js :=
  match base with
  | .undef => Js.undef
  | .null => Js.undef
  | b => b.get k

/-- JavaScript `v.toLowerCase()`: defined on strings only. -/
def jsToLower (v : Js) : M String :=
  match v with
  | .str s => M.pure (strLower s)
  | .undef => throwM (JsErr.typeError "Cannot read properties of undefined (reading toLowerCase)")
  | .null => throwM (JsErr.typeError "Cannot read properties of null (reading toLowerCase)")
  | _ => throwM (JsErr.typeError "toLowerCase is not a function")

/-- `Array.prototype.find` with a possibly-throwing callback. -/
def findM (p : α → M Bool) : List α → M (Option α)
  | [] => M.pure none
  | x :: xs => M.bind (p x) (fun b => if b then M.pure (some x) else findM p xs)

/- ### Prisma operations used by the webhook core -/

def userFindUnique (idJs : Js) : M (Option User) :=
  dbFind (fun db => db.users.find? (fun u => Js.str u.id == idJs))

/-- `prisma.user.findFirst({ orderBy: { createdAt: 'asc' } })`. -/
def userFindFirstByCreatedAt : M (Option User) :=
  dbFind (fun db => db.users.foldl
    (fun acc u => match acc with
      | none => some u
      | some v => if u.createdAt < v.createdAt then some u else some v)
    none)

def contactFindUnique (email : Js) : M (Option Contact) :=
  dbFind (fun db => db.contacts.find? (fun c => c.email == email))

def contactUpdate (cid : String) (firstName lastName phone : Js) (userId : String) : M Contact :=
  dbOp (fun db =>
    match db.contacts.find? (fun c => c.id == cid) with
    | none => Except.error (JsErr.error "Record to update not found")
    | some c =>
        let c1 := { c with firstName := firstName, lastName := lastName, phone := phone, userId := userId }
        Except.ok (c1, { db with contacts := db.contacts.map (fun x => if x.id == cid then c1 else x) }))

def contactCreate (firstName lastName email phone : Js) (userId : String) : M Contact :=
  dbOp (fun db =>
    if db.contacts.any (fun c => c.email == email) then
      Except.error (JsErr.error "Unique constraint failed on the fields: (email)")
    else
      let c : Contact := ⟨"contact" ++ toString db.nextId, firstName, lastName, email, phone, userId⟩
      Except.ok (c, { db with contacts := db.contacts ++ [c], nextId := db.nextId + 1 }))

/-- The stage rows of a pipeline, in storage return order. -/
def pipelineStagesOf (db : DB) (pid : String) : List PipelineStage :=
  db.pipelineStages.filter (fun s => s.pipelineId == pid)

def pipelineFindFirstByUser (userId : String) : M (Option (Pipeline × List PipelineStage)) :=
  dbFind (fun db => (db.pipelines.find? (fun p => p.userId == userId)).map
    (fun p => (p, pipelineStagesOf db p.id)))

def pipelineCreate (name : String) (userId : String) : M Pipeline :=
  dbOp (fun db =>
    let p : Pipeline := ⟨"pipeline" ++ toString db.nextId, name, userId⟩
    Except.ok (p, { db with pipelines := db.pipelines ++ [p], nextId := db.nextId + 1 }))

def pipelineStageCreateMany (entries : List (String × Nat)) (pid : String) : M Unit :=
  dbOp (fun db =>
    let r := entries.foldl
      (fun (acc : List PipelineStage × Nat) e =>
        (acc.1 ++ [⟨"stage" ++ toString acc.2, e.1, e.2, pid⟩], acc.2 + 1))
      ([], db.nextId)
    Except.ok ((), { db with pipelineStages := db.pipelineStages ++ r.1, nextId := r.2 }))

def pipelineFindUniqueWithStages (pid : String) : M (Option (Pipeline × List PipelineStage)) :=
  dbFind (fun db => (db.pipelines.find? (fun p => p.id == pid)).map
    (fun p => (p, pipelineStagesOf db p.id)))

def dealFindFirstTitle (title : Js) (pipelineId : String) (userId : String) : M (Option Deal) :=
  dbFind (fun db => db.deals.find?
    (fun d => d.title == title && d.pipelineId == pipelineId && d.userId == userId))

def dealUpdate (did : String) (value stageId contactId : Js) (userId : String) : M Deal :=
  dbOp (fun db =>
    match db.deals.find? (fun d => d.id == did) with
    | none => Except.error (JsErr.error "Record to update not found")
    | some d =>
        let d1 := { d with value := value, stageId := stageId, contactId := contactId, userId := userId }
        Except.ok (d1, { db with deals := db.deals.map (fun x => if x.id == did then d1 else x) }))

def dealCreate (title value stageId : Js) (pipelineId : String) (contactId : Js)
    (userId : String) (dataBag : Js) : M Deal :=
  dbOp (fun db =>
    let d : Deal := ⟨"deal" ++ toString db.nextId, title, value, stageId, pipelineId, contactId, userId, dataBag⟩
    Except.ok (d, { db with deals := db.deals ++ [d], nextId := db.nextId + 1 }))

/-- `prisma.deal.update({ where: { id }, data: { stageId } })`; Prisma throws
when no record matches the where clause. -/
def dealUpdateStage (didJs : Js) (stageId : Js) : M Deal :=
  dbOp (fun db =>
    match db.deals.find? (fun d => Js.str d.id == didJs) with
    | none => Except.error (JsErr.error "Record to update not found")
    | some d =>
        let d1 := { d with stageId := stageId }
        Except.ok (d1, { db with deals := db.deals.map (fun x => if x.id == d.id then d1 else x) }))

def activityCreate (ty : String) (note : String) (contactId dealId : Js)
    (userId : String) (dataBag : Js) : M Activity :=
  dbOp (fun db =>
    let a : Activity := ⟨"activity" ++ toString db.nextId, ty, note, contactId, dealId, userId, dataBag⟩
    Except.ok (a, { db with activities := db.activities ++ [a], nextId := db.nextId + 1 }))

def webhookLogFindUniqueByKey (key : String) : M (Option WebhookLog) :=
  dbFind (fun db => db.webhookLogs.find? (fun l => l.idempotencyKey == some key))

def webhookLogCreateKey (key : String) (payload : Js) (status : Nat) (processedAt : String) : M WebhookLog :=
  dbOp (fun db =>
    if db.webhookLogs.any (fun l => l.idempotencyKey == some key) then
      Except.error (JsErr.error "Unique constraint failed on the fields: (idempotencyKey)")
    else
      let l : WebhookLog := ⟨"log" ++ toString db.nextId, some key, none, "/api/v1/webhooks/iclosed", payload, status, processedAt⟩
      Except.ok (l, { db with webhookLogs := db.webhookLogs ++ [l], nextId := db.nextId + 1 }))

def webhookLogFindUniqueByEventId (eid : Js) : M (Option WebhookLog) :=
  dbFind (fun db => db.webhookLogs.find? (fun l => l.eventId == some eid))

def webhookLogCreateEvent (eid : Js) (payload : Js) (processedAt : String) : M WebhookLog :=
  dbOp (fun db =>
    if db.webhookLogs.any (fun l => l.eventId == some eid) then
      Except.error (JsErr.error "Unique constraint failed on the fields: (eventId)")
    else
      let l : WebhookLog := ⟨"log" ++ toString db.nextId, none, some eid, "/api/v1/webhooks/iclosed", payload, 200, processedAt⟩
      Except.ok (l, { db with webhookLogs := db.webhookLogs ++ [l], nextId := db.nextId + 1 }))

def workflowFindMany (eventName : String) : M (List Workflow) :=
  dbFind (fun db => db.workflows.filter
    (fun w => w.isActive && w.triggerEventTypes.contains eventName))

def taskCreate (title description dueDate : Js) (assignedTo contactId : String) : M TaskRec :=
  dbOp (fun db =>
    let t : TaskRec := ⟨"task" ++ toString db.nextId, title, description, dueDate, assignedTo, contactId⟩
    Except.ok (t, { db with tasks := db.tasks ++ [t], nextId := db.nextId + 1 }))

def pipelineStageFindFirstByName (name : Js) (pid : String) : M (Option PipelineStage) :=
  dbFind (fun db => db.pipelineStages.find?
    (fun s => Js.str s.name == name && s.pipelineId == pid))

/- ### automationService.js -/

/-- A deal as loaded by the automation service's contact query
(`include: { deals: { include: { stage: true, pipeline: true } } }`). -/
structure LoadedDealA where
  deal : Deal
  stage : Option PipelineStage
  pipeline : Option Pipeline

/-- The contact record loaded at the top of `triggerWorkflow`. -/
structure LoadedContact where
  contact : Contact
  deals : List LoadedDealA
  user : Option User

def contactFindUniqueIdInclude (cid : Js) : M (Option LoadedContact) :=
  dbFind (fun db => (db.contacts.find? (fun c => Js.str c.id == cid)).map (fun c =>
    { contact := c
      deals := (db.deals.filter (fun d => d.contactId == Js.str c.id)).map (fun d =>
        { deal := d
          stage := db.pipelineStages.find? (fun s => Js.str s.id == d.stageId)
          pipeline := db.pipelines.find? (fun p => p.id == d.pipelineId) })
      user := db.users.find? (fun u => u.id == c.userId) }))

/-- `contact.deals[0]?.value` (undefined when the contact has no deals). -/
def LoadedContact.dealsHeadValue (lc : LoadedContact) : Js :=
  match lc.deals with
  | [] => Js.undef
  | d :: _ => d.deal.value

/-- `contact.deals[0]?.stage?.name`. -/
def LoadedContact.dealsHeadStageName (lc : LoadedContact) : Js :=
  match lc.deals with
  | [] => Js.undef
  | d :: _ =>
      match d.stage with
      | none => Js.undef
      | some s => Js.str s.name

/-- A run of decimal digits folded into a number; `none` on a non-digit. -/
def digitsToNatAux : List Char → Nat → Option Nat
  | [], acc => some acc
  | c :: rest, acc =>
      if c.isDigit then digitsToNatAux rest (acc * 10 + (c.toNat - 48)) else none

/-- A nonempty run of decimal digits; `none` otherwise. -/
def digitsToNat : List Char → Option Nat
  | [] => none
  | c :: rest => if c.isDigit then digitsToNatAux rest (c.toNat - 48) else none

/-- JavaScript ToNumber on a string, for the integer fragment this model's
numbers cover: surrounding whitespace is ignored, the empty string is 0, and
an optionally signed run of decimal digits is its value; anything else
behaves as NaN. -/
def strToNumber (s : String) : Option Int :=
  match (strTrim s).data with
  | [] => some (0 : Int)
  | '-' :: rest => (digitsToNat rest).map (fun n => -(n : Int))
  | '+' :: rest => (digitsToNat rest).map (fun n => (n : Int))
  | l => (digitsToNat l).map (fun n => (n : Int))

/-- JavaScript numeric coercion as the `<=`/`>=` comparisons of the condition
language apply it: numbers, booleans, null and numeric strings coerce;
anything else behaves as NaN (all comparisons false). -/
def jsToNumber : Js → Option Int
  | Js.num n => some n
  | Js.boolean b => some (if b then 1 else 0)
  | Js.null => some 0
  | Js.str s => strToNumber s
  | _ => none

def jsLe (a b : Js) : Bool :=
  match jsToNumber a, jsToNumber b with
  | some x, some y => decide (x ≤ y)
  | _, _ => false

def jsGe (a b : Js) : Bool :=
  match jsToNumber a, jsToNumber b with
  | some x, some y => decide (y ≤ x)
  | _, _ => false

/-- `dealStage?.includes(condition.value)`: undefined when the receiver is
nullish (then falsy at the call site), argument display-coerced. -/
def jsOptIncludes (s v : Js) : Bool :=
  match s with
  | Js.str t => strIncludes t v.toDisplay
  | _ => false

/-- The `for (const condition of ...)` loop body of
`evaluateWorkflowConditions`; an early `return false` stops the loop. -/
def evalConditions (lc : LoadedContact) : List Js → M Bool
  | [] => M.pure true
  | condition :: rest =>
      if condition.get "field" == Js.str "deal_value" then
        let dealValue := jsOr lc.dealsHeadValue (Js.num 0)
        if condition.get "operator" == Js.str "greater_than" && jsLe dealValue (condition.get "value") then
          M.pure false
        else if condition.get "operator" == Js.str "less_than" && jsGe dealValue (condition.get "value") then
          M.pure false
        else evalConditions lc rest
      else if condition.get "field" == Js.str "deal_stage" then
        let dealStage := lc.dealsHeadStageName
        if condition.get "operator" == Js.str "equals" && dealStage != condition.get "value" then
          M.pure false
        else if condition.get "operator" == Js.str "contains" && !(jsOptIncludes dealStage (condition.get "value")) then
          M.pure false
        else evalConditions lc rest
      else evalConditions lc rest

def evaluateWorkflowConditions (workflow : Workflow) (lc : LoadedContact) : M Bool :=
  let conds := workflow.conditions
  if !conds.truthy || !(conds.get "conditions").truthy
      || (conds.get "conditions").get "length" == Js.num 0 then
    M.pure true
  else
    match conds.get "conditions" with
    | Js.arr l => evalConditions lc l
    | _ => throwM (JsErr.typeError "conditions is not iterable")

/-- Opaque model of `new Date(v)`. -/
def jsNewDate (v : Js) : Js := Js.obj [("jsDate", v)]

/-- The Prisma include `stage: true` materialized on the loaded deal: null
when the relation is absent. -/
def stageJsOf : Option PipelineStage → Js
  | some s => Js.obj [("id", Js.str s.id), ("name", Js.str s.name)]
  | none => Js.null

/-- One iteration of the action loop in `executeWorkflowActions`, including
its per-action try/catch that pushes a failed result. -/
def execAction (lc : LoadedContact) (results : List Js) (action : Js) : M (List Js) :=
  jsTry (do
    let ty := action.get "type"
    if ty == Js.str "send_email" then
      pure (results ++ [Js.obj [("actionType", Js.str "send_email"), ("status", Js.str "simulated")]])
    else if ty == Js.str "create_task" then do
      let task ← taskCreate
        (jsOr (action.get "title")
          (Js.str ("Task for " ++ (lc.contact.firstName).toDisplay ++ " " ++ (lc.contact.lastName).toDisplay)))
        (jsOr (action.get "description") (Js.str ""))
        (if (action.get "dueDate").truthy then jsNewDate (action.get "dueDate") else Js.null)
        lc.contact.userId lc.contact.id
      pure (results ++ [Js.obj [("actionType", Js.str "create_task"), ("status", Js.str "success"),
        ("taskId", Js.str task.id)]])
    else if ty == Js.str "add_tag" then
      pure (results ++ [Js.obj [("actionType", Js.str "add_tag"), ("status", Js.str "simulated"),
        ("tag", action.get "tag")]])
    else if ty == Js.str "move_deal_stage" then
      match lc.deals with
      | [] => pure results
      | d :: _ => do
          let targetStage ← pipelineStageFindFirstByName (action.get "targetStage") d.deal.pipelineId
          match targetStage with
          | some ts => do
              let _ ← dealUpdateStage (Js.str d.deal.id) (Js.str ts.id)
              let fromName ← jsMember (stageJsOf d.stage) "name"
              pure (results ++ [Js.obj [("actionType", Js.str "move_deal_stage"), ("status", Js.str "success"),
                ("fromStage", fromName), ("toStage", Js.str ts.name)]])
          | none =>
              pure (results ++ [Js.obj [("actionType", Js.str "move_deal_stage"), ("status", Js.str "failed"),
                ("error", Js.str "Target stage not found")]])
    else
      pure (results ++ [Js.obj [("actionType", ty), ("status", Js.str "unknown")]]))
  (fun e => M.pure (results ++ [Js.obj [("actionType", action.get "type"), ("status", Js.str "failed"),
    ("error", Js.str e.message)]]))

def execActions (lc : LoadedContact) : List Js → List Js → M (List Js)
  | [], results => M.pure results
  | action :: rest, results => do
      let results1 ← execAction lc results action
      execActions lc rest results1

def executeWorkflowActions (workflow : Workflow) (lc : LoadedContact) : M Js := do
  let results ← execActions lc workflow.actions []
  pure (Js.obj [("results", Js.arr results)])

/-- The body of one iteration of the per-workflow loop of `triggerWorkflow`
(the statements inside the per-workflow try). -/
def runWorkflowBody (lc : LoadedContact) (eventName : String) (workflow : Workflow) : M Unit := do
  let conditionsMet ← evaluateWorkflowConditions workflow lc
  if conditionsMet then do
    let executionResult ← executeWorkflowActions workflow lc
    let _ ← activityCreate "workflow_executed"
      ("Workflow " ++ workflow.name ++ " executed successfully for event " ++ eventName)
      (Js.str lc.contact.id) Js.null lc.contact.userId
      (Js.obj [("workflowId", Js.str workflow.id), ("eventName", Js.str eventName),
        ("executionResult", executionResult)])
    pure ()
  else pure ()

/-- The per-workflow catch handler of `triggerWorkflow`: records a
workflow_failed Activity (that write can itself throw, escaping to the outer
catch, as in the source). -/
def recordWorkflowFailure (lc : LoadedContact) (eventName : String) (workflow : Workflow)
    (e : JsErr) : M Unit := do
  let _ ← activityCreate "workflow_failed"
    ("Workflow " ++ workflow.name ++ " failed to execute for event " ++ eventName ++ ": " ++ e.message)
    (Js.str lc.contact.id) Js.null lc.contact.userId
    (Js.obj [("workflowId", Js.str workflow.id), ("eventName", Js.str eventName),
      ("error", Js.str e.message)])
  pure ()

/-- The per-workflow loop of `triggerWorkflow`: each iteration runs under its
own try/catch. -/
def runWorkflows (lc : LoadedContact) (eventName : String) : List Workflow → M Unit
  | [] => M.pure ()
  | workflow :: rest => do
      jsTry (runWorkflowBody lc eventName workflow) (recordWorkflowFailure lc eventName workflow)
      runWorkflows lc eventName rest

/-- services/automationService.js, triggerWorkflow: the whole body sits in a
try whose catch returns a plain result object. -/
def triggerWorkflow (eventName : String) (contactId : Js) : M Js :=
  jsTry (do
    let contact ← contactFindUniqueIdInclude contactId
    match contact with
    | none => pure (Js.obj [("success", Js.boolean false), ("message", Js.str "Contact not found")])
    | some lc => do
        let workflows ← workflowFindMany eventName
        runWorkflows lc eventName workflows
        pure (Js.obj [("success", Js.boolean true),
          ("message", Js.str ("Processed " ++ toString workflows.length ++ " workflows for event " ++ eventName))]))
  (fun e => M.pure (Js.obj [("success", Js.boolean false), ("message", Js.str e.message)]))

/- ### HTTP-layer types -/

/-- The configuration and platform primitives a handler reads: the crypto
digest (abstract), the calendar day and ISO timestamp, and the configured
shared secret (undefined when the environment variable is unset). -/
structure Env where
  hash : String → String
  today : String
  nowIso : String
  iclosedSecret : Js

structure Req where
  headers : List (String × String)
  body : Js

structure Resp where
  status : Nat
  body : Js

def mkResp (status : Nat) (body : Js) : Resp := ⟨status, body⟩

/-- Express header access (header names arrive lowercased). -/
def headerGet (req : Req) (k : String) : Js :=
  match req.headers.find? (fun p => p.1 == k) with
  | some p => Js.str p.2
  | none => Js.undef

/- ### Permissive webhook controller variant -/

/-- generateIdempotencyKey: SHA-256 hex digest of the serialized payload
concatenated with the calendar day.  The digest is the crypto library, an
external collaborator, and enters the model as the abstract `env.hash`. -/
def generateIdempotencyKey (env : Env) (payload : Js) : String :=
  env.hash (payload.stringify ++ env.today)

def isWebhookProcessed (key : String) : M Bool :=
  jsTry (do
    let existingLog ← webhookLogFindUniqueByKey key
    pure existingLog.isSome)
  (fun _ => M.pure false)

def logProcessedWebhook (env : Env) (key : String) (payload : Js) (status : String) : M Unit :=
  jsTry (do
    let _ ← webhookLogCreateKey key payload (if status == "success" then 200 else 500) env.nowIso
    pure ())
  (fun _ => M.pure ())

/-- The shared parseName helper: split a free-text name on whitespace. -/
def parseName (fullName : Js) : Js × Js :=
  match fullName with
  | Js.str s =>
      if s == "" then (Js.null, Js.null)
      else
        match (charsFields [] (strTrim s).data).filter (fun t => t != "") with
        | [] => (Js.str "", Js.null)
        | [p] => (Js.str p, Js.null)
        | p :: rest => (Js.str p, Js.str (String.intercalate " " rest))
  | _ => (Js.null, Js.null)

/-- The guard `email && typeof email === 'string' && email.includes('@')`. -/
def validEmail (email : Js) : Bool :=
  match email with
  | Js.str s => strIncludes s "@"
  | _ => false

/-- Permissive variant, contact-processing block (source lines 120–171):
update falls back to the existing value on each falsy incoming field; its
try/catch swallows any error. -/
def processContactP (email name phone : Js) (user : User) : M Unit :=
  if validEmail email then
    jsTry (do
      let fl := parseName name
      let existingContact ← contactFindUnique email
      match existingContact with
      | some c => do
          let _ ← contactUpdate c.id (jsOr fl.1 c.firstName) (jsOr fl.2 c.lastName)
            (jsOr phone c.phone) user.id
          pure ()
      | none => do
          let _ ← contactCreate fl.1 fl.2 email phone user.id
          pure ())
    (fun _ => M.pure ())
  else M.pure ()

/-- Source line 178:
`const dealValue = dealData.value || dealValue.amount || dealData.Value || dealData.Amount || 0;`
The initializer names `dealValue` itself; under let/const temporal-dead-zone
rules, whenever `dealData.value` is falsy the second operand is evaluated and
reading `dealValue` there throws a ReferenceError, so the later operands are
unreachable. -/
def evalDealValue (dealData : Js) : M Js :=
  let v := dealData.get "value"
  if v.truthy then M.pure v
  else throwM (JsErr.referenceError "Cannot access dealValue before initialization")

/-- Permissive variant, stage resolution (source lines 263–283): name match
from new_status on a lead_status_changed event first, explicit stageId second,
first pipeline stage as fallback. -/
def resolveTargetStage (event dealData dealStageId : Js) (stages : List PipelineStage) :
    M (Option PipelineStage) := do
  let t1 ← (if event == Js.str "lead_status_changed" && (dealData.get "new_status").truthy then
      findM (fun stage => do
        let ns ← jsToLower (dealData.get "new_status")
        pure (strIncludes (strLower stage.name) ns || strLower stage.name == ns)) stages
    else pure none)
  let t2 := match t1 with
    | some s => some s
    | none =>
        if dealStageId.truthy then stages.find? (fun stage => Js.str stage.id == dealStageId)
        else none
  pure (match t2 with
    | some s => some s
    | none => stages.head?)

/-- The JS reads `targetStage.id`; with an empty stage list resolution left
targetStage undefined and the property read throws. -/
def stageIdOf (t : Option PipelineStage) : M String :=
  match t with
  | some s => M.pure s.id
  | none => throwM (JsErr.typeError "Cannot read properties of undefined (reading id)")

def contactIdJs : Option Contact → Js
  | some c => Js.str c.id
  | none => Js.null

/-- Permissive variant, deal-processing block (source lines 173–351),
including its try/catch, which swallows any error and lets control reach the
final WebhookLog write.  A `some` result is the early 200 response returned
from inside the block (missing title, line 184), which skips that write. -/
def processDealP (payload email : Js) (user : User) : M (Option Resp) :=
  if (payload.get "deal").truthy then
    jsTry (do
      let dealData := payload.get "deal"
      let dealTitle := jsOr (dealData.get "title") (jsOr (dealData.get "name")
        (jsOr (dealData.get "Title") (dealData.get "Name")))
      let dealValue ← evalDealValue dealData
      let dealStageId := jsOr (dealData.get "stageId") (jsOr (dealData.get "pipeline_stage_id")
        (jsOr (dealData.get "StageId") (dealData.get "Pipeline_Stage_Id")))
      let dealContactEmail := jsOr (dealData.get "contactEmail") (jsOr (dealData.get "contact_email")
        (jsOr (dealData.get "ContactEmail") email))
      if !dealTitle.truthy then
        pure (some (mkResp 200 (Js.obj [("status", Js.str "success"), ("message", Js.str "Webhook received")])))
      else do
        let dealContact ← (if dealContactEmail.truthy then do
            let found ← contactFindUnique dealContactEmail
            (match found with
             | some c => pure (some c)
             | none =>
                if dealContactEmail != email then do
                  let contactName := jsOr (dealData.get "contactName")
                    (jsOr (dealData.get "contact_name") (dealData.get "ContactName"))
                  let fl := parseName contactName
                  let c ← contactCreate fl.1 fl.2 dealContactEmail
                    (jsOr (dealData.get "contactPhone")
                      (jsOr (dealData.get "contact_phone") (dealData.get "ContactPhone"))) user.id
                  pure (some c)
                else pure none)
          else pure none)
        let pipeline0 ← pipelineFindFirstByUser user.id
        let pipelineW ← (match pipeline0 with
          | some pw => pure (some pw)
          | none => do
              let dp ← pipelineCreate "Default Pipeline" user.id
              pipelineStageCreateMany
                [("Lead", 1), ("Qualified", 2), ("Proposal", 3), ("Negotiation", 4),
                 ("Closed Won", 5), ("Closed Lost", 6)] dp.id
              pipelineFindUniqueWithStages dp.id)
        match pipelineW with
        | none =>
            -- `pipeline.stages` with pipeline null (unreachable: the refetch
            -- follows the create)
            do let _ ← jsMember Js.null "stages"; pure none
        | some pw => do
            let targetStage ← resolveTargetStage (payload.get "event") dealData dealStageId pw.2
            let existingDeal ← dealFindFirstTitle dealTitle pw.1.id user.id
            match existingDeal with
            | some ed => do
                let tsId ← stageIdOf targetStage
                let _ ← dealUpdate ed.id dealValue (Js.str tsId) (contactIdJs dealContact) user.id
                (match dealContact with
                 | some dc => do
                     let _ ← triggerWorkflow "pipeline_stage_changed" (Js.str dc.id)
                     pure ()
                 | none => pure ())
                pure none
            | none => do
                let tsId ← stageIdOf targetStage
                let _ ← dealCreate dealTitle dealValue (Js.str tsId) pw.1.id
                  (contactIdJs dealContact) user.id Js.null
                (match dealContact with
                 | some dc =>
                     if payload.get "event" == Js.str "call_booked" then do
                       let _ ← activityCreate "APPOINTMENT_BOOKED"
                         ("Appointment booked for " ++ dealTitle.toDisplay)
                         (Js.str dc.id) Js.null user.id
                         (Js.obj [("source", Js.str "iClosed via Zapier"), ("deal_name", dealTitle),
                           ("booking_details", jsOr (payload.get "booking_details")
                             (Js.str "Details from iClosed payload"))])
                       pure ()
                     else pure ()
                 | none => pure ())
                (match dealContact with
                 | some dc => do
                     let _ ← triggerWorkflow "deal_created" (Js.str dc.id)
                     pure ()
                 | none => pure ())
                pure none)
    (fun _ => M.pure none)
  else M.pure none

def softRespP : Resp :=
  mkResp 200 (Js.obj [("status", Js.str "success"), ("message", Js.str "Webhook received")])

/-- Permissive variant, user resolution (source lines 94–118): payload userId
first, else earliest-created user; no user, or a lookup error, soft-succeeds
with a 200 response. -/
def resolveUserP (payload : Js) : M (Sum Resp User) :=
  jsTry (do
    let u1 ← (if (payload.get "userId").truthy then userFindUnique (payload.get "userId")
      else pure none)
    let u2 ← (match u1 with
      | some u => pure (some u)
      | none => userFindFirstByCreatedAt)
    match u2 with
    | some u => pure (Sum.inr u)
    | none => pure (Sum.inl softRespP))
  (fun _ => M.pure (Sum.inl softRespP))

/-- webhookController.js (permissive variant), handleIncomingWebhook. -/
def handleIncomingWebhookP (env : Env) (req : Req) : M Resp :=
  jsTry (do
    let bodyData ← jsMember req.body "data"
    let payload := jsOr bodyData (jsOr (req.body.get "payload") req.body)
    let idempotencyKey := generateIdempotencyKey env payload
    let alreadyProcessed ← isWebhookProcessed idempotencyKey
    if alreadyProcessed then
      pure (mkResp 200 (Js.obj [("status", Js.str "success"),
        ("message", Js.str "Duplicate webhook - already processed"),
        ("idempotencyKey", Js.str idempotencyKey)]))
    else do
      let contactField ← jsMember payload "contact"
      let email := jsOr (jsMemberOpt contactField "email")
        (jsOr (payload.get "email") (payload.get "Email"))
      let name := jsOr (jsMemberOpt contactField "name")
        (jsOr (payload.get "name") (jsOr (payload.get "Name")
          (jsOr (payload.get "full_name") (payload.get "Full_Name"))))
      let phone := jsOr (jsMemberOpt contactField "phone")
        (jsOr (payload.get "phone") (jsOr (payload.get "Phone")
          (jsOr (payload.get "phone_number") (payload.get "Phone_Number"))))
      let userRes ← resolveUserP payload
      match userRes with
      | Sum.inl r => pure r
      | Sum.inr user => do
          processContactP email name phone user
          let dealResp ← processDealP payload email user
          match dealResp with
          | some r => pure r
          | none => do
              logProcessedWebhook env idempotencyKey payload "success"
              pure (mkResp 200 (Js.obj [("status", Js.str "success"),
                ("message", Js.str "Webhook received"),
                ("idempotencyKey", Js.str idempotencyKey)])))
  (fun _ =>
    -- Source catch, lines 358–366: it calls
    -- logProcessedWebhook(idempotencyKey, payload, 'failed'), but both
    -- idempotencyKey and payload are const-bound inside the try block and out
    -- of scope here, so the first reference throws a ReferenceError; neither
    -- the failed log write nor the 200 response is reached.
    throwM (JsErr.referenceError "idempotencyKey is not defined"))

/- ### Secured webhook controller variant (iclosedController) -/

/-- upsertContact (secured variant): keyed on email; an update falls back to
the stored value on each falsy incoming field.  Its try/catch only logs and
rethrows, which leaves the semantics unchanged. -/
def upsertContact (email firstName lastName phone : Js) (userId : String) : M Contact := do
  if !email.truthy then
    throwM (JsErr.error "Email is required for contact operations")
  else do
    let existingContact ← contactFindUnique email
    match existingContact with
    | some c =>
        contactUpdate c.id (jsOr firstName c.firstName) (jsOr lastName c.lastName)
          (jsOr phone c.phone) userId
    | none => contactCreate firstName lastName email phone userId

/-- createDeal (secured variant): defaults the pipeline to the user's first
(creating one with a fixed stage set when none exists), the stage to the
pipeline's first, and tags the data bag with the source.  Its try/catch only
logs and rethrows. -/
def createDealS (title value stageId pipelineId contactId source : Js) (userId : String) : M Deal := do
  let targetPipelineId ← (if !pipelineId.truthy then do
      let pipeline ← pipelineFindFirstByUser userId
      match pipeline with
      | none => do
          let dp ← pipelineCreate "Default Pipeline" userId
          pipelineStageCreateMany
            [("New", 1), ("Qualified", 2), ("Proposal", 3), ("Negotiation", 4),
             ("Closed Won", 5), ("Closed Lost", 6)] dp.id
          pure dp.id
      | some pw => pure pw.1.id
    else
      -- a caller-supplied pipeline id must be a string for the Prisma query
      match pipelineId with
      | Js.str s => pure s
      | _ => throwM (JsErr.error "Invalid pipeline id"))
  let targetStageId ← (if !stageId.truthy then do
      let pipeline ← pipelineFindUniqueWithStages targetPipelineId
      pure (match pipeline with
        | some pw =>
            match pw.2 with
            | s :: _ => Js.str s.id
            | [] => stageId
        | none => stageId)
    else pure stageId)
  dealCreate title (jsOr value (Js.num 0)) targetStageId targetPipelineId contactId userId
    (Js.obj [("source", jsOr source (Js.str "iClosed"))])

/-- updateDealStage (secured variant). -/
def updateDealStage (dealId stageId : Js) : M Deal :=
  dealUpdateStage dealId stageId

/-- logActivity (secured variant): pure append. -/
def logActivity (ty : String) (note : String) (contactId dealId : Js) (userId : String)
    (dataBag : Js) : M Activity :=
  activityCreate ty note contactId dealId userId dataBag

/-- isProcessed (secured variant): a falsy eventId, or a lookup error, reads
as not processed. -/
def isProcessed (eventId : Js) : M Bool :=
  jsTry (do
    if !eventId.truthy then pure false
    else do
      let existingLog ← webhookLogFindUniqueByEventId eventId
      pure existingLog.isSome)
  (fun _ => M.pure false)

/-- markProcessed (secured variant): write the eventId-keyed WebhookLog row
(its try/catch only logs and rethrows). -/
def markProcessed (env : Env) (eventId : Js) (payload : Js) : M WebhookLog :=
  webhookLogCreateEvent eventId payload env.nowIso

/-- handleAppointmentBooked: upsert the contact, create a source-tagged deal,
log an APPOINTMENT_BOOKED activity.  Its try/catch only logs and rethrows. -/
def handleAppointmentBooked (env : Env) (payload : Js) (user : User) : M Unit := do
  let contactData := jsOr (payload.get "contact") (jsOr (jsMemberOpt (payload.get "data") "contact") (Js.obj []))
  let email := jsOr (contactData.get "email") (payload.get "email")
  let name := jsOr (contactData.get "name") (contactData.get "full_name")
  let phone := jsOr (contactData.get "phone") (contactData.get "phone_number")
  let fl := parseName name
  let contact ← upsertContact email fl.1 fl.2 phone user.id
  let dealData := jsOr (payload.get "deal") (jsOr (jsMemberOpt (payload.get "data") "deal") (Js.obj []))
  let dealTitle := jsOr (dealData.get "title") (jsOr (dealData.get "name")
    (Js.str ("Appointment with " ++ name.toDisplay)))
  let dealValue := jsOr (dealData.get "value") (jsOr (dealData.get "amount") (Js.num 0))
  let deal ← createDealS dealTitle dealValue Js.undef Js.undef (Js.str contact.id)
    (Js.str "iClosed") user.id
  let appointmentTime := jsOr (payload.get "appointment_time")
    (jsOr (jsMemberOpt (payload.get "data") "appointment_time") (Js.str env.nowIso))
  let _ ← logActivity "APPOINTMENT_BOOKED" ("Appointment booked for " ++ appointmentTime.toDisplay)
    (Js.str contact.id) (Js.str deal.id) user.id
    (Js.obj [("source", Js.str "iClosed"), ("appointmentTime", appointmentTime),
      ("dealName", dealTitle),
      ("bookingDetails", jsOr (payload.get "booking_details")
        (jsOr (jsMemberOpt (payload.get "data") "booking_details") (Js.obj [])))])
  pure ()

/-- The deal record loaded in handleStatusChanged: the findFirst includes
only the pipeline relation, with its stages. -/
structure LoadedDeal where
  deal : Deal
  pipeline : Option (Pipeline × List PipelineStage)

def dealFindFirstByIdUser (dealId : Js) (userId : String) : M (Option LoadedDeal) :=
  dbFind (fun db => (db.deals.find? (fun d => Js.str d.id == dealId && d.userId == userId)).map
    (fun d =>
      { deal := d
        pipeline := (db.pipelines.find? (fun p => p.id == d.pipelineId)).map
          (fun p => (p, pipelineStagesOf db p.id)) }))

/-- The JS read `deal.stage` on that record: the query included only the
pipeline relation, so the returned object has no stage property and the read
yields undefined. -/
def LoadedDeal.stageRead (_ : LoadedDeal) : Js := Js.undef

/-- handleStatusChanged: find the deal by payload id, match a stage by name
against the new status (equality first, then substring), update the stage,
then log a DEAL_STATUS_CHANGED activity whose data reads `deal.stage.name`.
Its try/catch only logs and rethrows. -/
def handleStatusChanged (env : Env) (payload : Js) (user : User) : M Unit := do
  let dealData := jsOr (payload.get "deal") (jsOr (jsMemberOpt (payload.get "data") "deal") (Js.obj []))
  let dealId := jsOr (dealData.get "id") (dealData.get "deal_id")
  let newStatus := jsOr (dealData.get "new_status") (payload.get "new_status")
  if !dealId.truthy then
    throwM (JsErr.error "Deal ID is required for status_changed event")
  else do
    let dealFound ← dealFindFirstByIdUser dealId user.id
    match dealFound with
    | none => throwM (JsErr.error ("Deal with ID " ++ dealId.toDisplay ++ " not found"))
    | some ld => do
        let stages ← (match ld.pipeline with
          | some pw => pure pw.2
          | none => throwM (JsErr.typeError "Cannot read properties of null (reading stages)"))
        let targetStage ← findM (fun stage => do
            let ns ← jsToLower newStatus
            pure (strLower stage.name == ns || strIncludes (strLower stage.name) ns)) stages
        match targetStage with
        | none =>
            throwM (JsErr.error ("Stage with status \"" ++ newStatus.toDisplay ++ "\" not found in pipeline"))
        | some ts => do
            let _ ← updateDealStage dealId (Js.str ts.id)
            let previousStatus ← jsMember ld.stageRead "name"
            let _ ← logActivity "DEAL_STATUS_CHANGED" ("Deal status changed to: " ++ newStatus.toDisplay)
              Js.null (Js.str ld.deal.id) user.id
              (Js.obj [("source", Js.str "iClosed"), ("previousStatus", previousStatus),
                ("newStatus", newStatus), ("changedAt", Js.str env.nowIso)])
            pure ()

/-- Secured variant, user resolution (source lines 627–657): payload userId
first, else earliest-created user; no user at all, or a lookup error, is a
500 response. -/
def resolveUserS (payload : Js) : M (Sum Resp User) :=
  jsTry (do
    let u1 ← (if (payload.get "userId").truthy then userFindUnique (payload.get "userId")
      else pure none)
    let u2 ← (match u1 with
      | some u => pure (some u)
      | none => userFindFirstByCreatedAt)
    match u2 with
    | some u => pure (Sum.inr u)
    | none => pure (Sum.inl (mkResp 500 (Js.obj [("status", Js.str "error"),
        ("message", Js.str "Internal Server Error: No users found")]))))
  (fun _ => M.pure (Sum.inl (mkResp 500 (Js.obj [("status", Js.str "error"),
    ("message", Js.str "Internal Server Error: Failed to find user")]))))

/-- Tail of the secured handler after a successful dispatch: mark the event
processed when it carries an id, then answer 200. -/
def finishS (env : Env) (eventId : Js) (payload : Js) : M Resp := do
  (if eventId.truthy then do
      let _ ← markProcessed env eventId payload
      pure ()
    else pure ())
  pure (mkResp 200 (Js.obj [("status", Js.str "success"),
    ("message", Js.str "Webhook processed successfully"), ("eventId", eventId)]))

/-- iclosedController.js (secured variant), handleIncomingWebhook. -/
def handleIncomingWebhookS (env : Env) (req : Req) : M Resp :=
  jsTry (do
    let secretToken := headerGet req "x-webhook-secret"
    let expectedSecret := env.iclosedSecret
    if !secretToken.truthy || secretToken != expectedSecret then
      pure (mkResp 401 (Js.obj [("status", Js.str "error"),
        ("message", Js.str "Unauthorized: Invalid or missing secret token")]))
    else do
      let payload := req.body
      if !payload.truthy || !(payload.get "event").truthy then
        pure (mkResp 400 (Js.obj [("status", Js.str "error"),
          ("message", Js.str "Bad Request: Missing event in payload")]))
      else do
        let eventId := jsOr (payload.get "event_id") (jsMemberOpt (payload.get "data") "event_id")
        let dup ← (if eventId.truthy then isProcessed eventId else pure false)
        if dup then
          pure (mkResp 200 (Js.obj [("status", Js.str "success"),
            ("message", Js.str "Duplicate event - already processed"), ("eventId", eventId)]))
        else do
          let userRes ← resolveUserS payload
          match userRes with
          | Sum.inl r => pure r
          | Sum.inr user => do
              let ev := payload.get "event"
              if ev == Js.str "appointment_booked" then do
                handleAppointmentBooked env payload user
                finishS env eventId payload
              else if ev == Js.str "status_changed" then do
                handleStatusChanged env payload user
                finishS env eventId payload
              else
                pure (mkResp 200 (Js.obj [("status", Js.str "success"),
                  ("message", Js.str ("Event type " ++ ev.toDisplay ++ " received but not processed"))])))
  (fun e =>
    M.pure (mkResp 500 (Js.obj [("status", Js.str "error"),
      ("message", Js.str "Internal Server Error: Failed to process webhook"),
      ("error", Js.str e.message)])))

/- ### Evaluation lemmas for the handler monad -/

theorem runPure (a : α) (db : DB) : (pure a : M α) db = (Except.ok a, db) := rfl

theorem runBind (x : M α) (f : α → M β) (db : DB) :
    (x >>= f) db = (match x db with
      | (Except.ok a, db1) => f a db1
      | (Except.error e, db1) => (Except.error e, db1)) := rfl

theorem runThrow (e : JsErr) (db : DB) : (throwM e : M α) db = (Except.error e, db) := rfl

theorem runTry (x : M α) (h : JsErr → M α) (db : DB) :
    jsTry x h db = (match x db with
      | (Except.ok a, db1) => (Except.ok a, db1)
      | (Except.error e, db1) => h e db1) := rfl

/-- A storage call under an empty fault schedule. -/
theorem runDbOp (f : DB → Except JsErr (α × DB)) (db : DB) (h : db.faults = []) :
    dbOp f db = (match f db with
      | Except.ok (a, db1) => (Except.ok a, db1)
      | Except.error e => (Except.error e, db)) := by
  unfold dbOp; rw [h]

theorem runDbFind (f : DB → α) (db : DB) (h : db.faults = []) :
    dbFind f db = (Except.ok (f db), db) := by
  unfold dbFind
  rw [runDbOp _ db h]

theorem jsStrTruthy (s : String) : (Js.str s).truthy = !(s == "") := rfl

theorem jsBeqStr (a b : String) : (Js.str a == Js.str b) = (a == b) := rfl

/- ### Claim theorems -/

/-- A contact as loaded for the automation service, with no deals. -/
def lcW : LoadedContact := ⟨⟨"cW", Js.null, Js.null, Js.str "w@x", Js.null, "uW"⟩, [], none⟩

/-- A workflow whose conditions JSON holds a non-iterable conditions value,
so evaluating it throws a TypeError. -/
def wfW : Workflow := ⟨"wf1", "Bad", true, Js.obj [("conditions", Js.num 5)], ["evt"], []⟩

def dbW : DB := ⟨[], [], [], [], [], [], [], [], [], 0, []⟩

/-- C7: `triggerWorkflow` never throws. (1) For every event name, contact id,
database state and storage fault schedule it returns `Except.ok`, so no
automation error can escape and alter the webhook HTTP response. (2) An
exception raised while executing an individual workflow is caught by the
per-workflow catch, which records it as a workflow_failed Activity and
continues with the remaining workflows. (3) An exception raised while loading
data is caught by the outer catch, which returns a plain failure result
object carrying the error message. -/
theorem triggerWorkflow_catches_and_records :
    (∀ (eventName : String) (contactId : Js) (db : DB),
      ∃ v db1, triggerWorkflow eventName contactId db = (Except.ok v, db1))
    ∧ (∀ (lc : LoadedContact) (eventName : String) (workflow : Workflow)
        (rest : List Workflow) (db db1 : DB) (e : JsErr),
        runWorkflowBody lc eventName workflow db = (Except.error e, db1) →
        db1.faults = [] →
        runWorkflows lc eventName (workflow :: rest) db =
          runWorkflows lc eventName rest
            { db1 with
              activities := db1.activities ++
                [⟨"activity" ++ toString db1.nextId, "workflow_failed",
                  "Workflow " ++ workflow.name ++ " failed to execute for event "
                    ++ eventName ++ ": " ++ e.message,
                  Js.str lc.contact.id, Js.null, lc.contact.userId,
                  Js.obj [("workflowId", Js.str workflow.id),
                    ("eventName", Js.str eventName),
                    ("error", Js.str e.message)]⟩],
              nextId := db1.nextId + 1 })
    ∧ (∀ (eventName : String) (contactId : Js) us cs ps ss ds as1 ls ws ts n fl,
        triggerWorkflow eventName contactId ⟨us, cs, ps, ss, ds, as1, ls, ws, ts, n, true :: fl⟩ =
          (Except.ok (Js.obj [("success", Js.boolean false),
            ("message", Js.str "Database connection failed")]),
           ⟨us, cs, ps, ss, ds, as1, ls, ws, ts, n, fl⟩)) := by
  refine ⟨?_, ?_, ?_⟩
  · intro eventName contactId db
    unfold triggerWorkflow
    rw [runTry]
    split
    · exact ⟨_, _, rfl⟩
    · exact ⟨_, _, rfl⟩
  · intro lc eventName workflow rest db db1 e hrun hfl
    obtain ⟨us, cs, ps, ss, ds, as1, ls, ws, ts, n, fl⟩ := db1
    have hfl1 : fl = [] := hfl
    subst hfl1
    simp only [runWorkflows]
    rw [runBind, runTry, hrun]
    rfl
  · intro eventName contactId us cs ps ss ds as1 ls ws ts n fl
    rfl

/-- Witness for C7: a workflow whose conditions value is not an array makes
the per-workflow body throw a TypeError on a fault-free store, and the loop
then appends the workflow_failed Activity before moving on. -/
theorem triggerWorkflow_catches_and_records_witness :
    runWorkflowBody lcW "evt" wfW dbW =
      (Except.error (JsErr.typeError "conditions is not iterable"), dbW)
    ∧ dbW.faults = []
    ∧ runWorkflows lcW "evt" [wfW] dbW =
        runWorkflows lcW "evt" []
          { dbW with
            activities := dbW.activities ++
              [⟨"activity" ++ toString dbW.nextId, "workflow_failed",
                "Workflow " ++ wfW.name ++ " failed to execute for event "
                  ++ "evt" ++ ": " ++ (JsErr.typeError "conditions is not iterable").message,
                Js.str lcW.contact.id, Js.null, lcW.contact.userId,
                Js.obj [("workflowId", Js.str wfW.id),
                  ("eventName", Js.str "evt"),
                  ("error", Js.str (JsErr.typeError "conditions is not iterable").message)]⟩],
            nextId := dbW.nextId + 1 } :=
  ⟨rfl, rfl,
    triggerWorkflow_catches_and_records.2.1 lcW "evt" wfW [] dbW dbW
      (JsErr.typeError "conditions is not iterable") rfl rfl⟩

/-- C3: a request to the secured webhook endpoint whose x-webhook-secret
header is missing (or empty) or does not equal the configured secret is
answered 401 with the structured Unauthorized body, and the database — every
Contact, Deal, Activity and WebhookLog row — is left exactly as it was. -/
theorem secured_unauthorized_rejected (env : Env) (req : Req) (db : DB)
    (h : (headerGet req "x-webhook-secret").truthy = false ∨
         (headerGet req "x-webhook-secret" == env.iclosedSecret) = false) :
    handleIncomingWebhookS env req db =
      (Except.ok (mkResp 401 (Js.obj [("status", Js.str "error"),
        ("message", Js.str "Unauthorized: Invalid or missing secret token")])), db) := by
  have hc : (!(headerGet req "x-webhook-secret").truthy
      || headerGet req "x-webhook-secret" != env.iclosedSecret) = true := by
    rcases h with h | h <;> simp [h, bne]
  unfold handleIncomingWebhookS
  rw [runTry]
  simp only [hc, Bool.true_eq, if_true, runPure]

/-- Witness for C3 at a concrete request with no secret header. -/
theorem secured_unauthorized_rejected_witness :
    (headerGet ⟨[], Js.obj [("event", Js.str "appointment_booked")]⟩ "x-webhook-secret").truthy = false ∧
    handleIncomingWebhookS ⟨fun s => s, "d", "t", Js.str "sec"⟩
        ⟨[], Js.obj [("event", Js.str "appointment_booked")]⟩
        ⟨[⟨"u1", 0⟩], [], [], [], [], [], [], [], [], 0, []⟩ =
      (Except.ok (mkResp 401 (Js.obj [("status", Js.str "error"),
        ("message", Js.str "Unauthorized: Invalid or missing secret token")])),
       ⟨[⟨"u1", 0⟩], [], [], [], [], [], [], [], [], 0, []⟩) :=
  ⟨rfl, secured_unauthorized_rejected _ _ _ (Or.inl rfl)⟩

def envX : Env := ⟨fun s => s, "2026-10-12", "NOW", Js.str "sec"⟩

def dbMissingDeal : DB :=
  ⟨[⟨"u1", 0⟩], [], [⟨"p1", "Pipe", "u1"⟩],
   [⟨"st1", "New", 1, "p1"⟩, ⟨"st2", "Negotiation", 2, "p1"⟩],
   [], [], [], [], [], 0, []⟩

def reqMissingDeal : Req := ⟨[("x-webhook-secret", "sec")],
  Js.obj [("event", Js.str "status_changed"),
          ("deal", Js.obj [("id", Js.str "nope"), ("new_status", Js.str "Negotiation")])]⟩

/-- C1 counterexample: an authenticated, well-shaped status_changed delivery
referencing a deal id that does not exist is answered HTTP 500 — not the
claimed 200 — with no failed-WebhookLog attempt (the database is unchanged),
because the secured variant's outer catch returns a 500 error envelope. -/
theorem secured_missing_deal_responds_500 :
    handleIncomingWebhookS envX reqMissingDeal dbMissingDeal =
      (Except.ok (mkResp 500 (Js.obj [("status", Js.str "error"),
        ("message", Js.str "Internal Server Error: Failed to process webhook"),
        ("error", Js.str "Deal with ID nope not found")])), dbMissingDeal) := rfl

theorem jsBeqDef (a b : Js) : (a == b) = Js.beq a b := rfl

/-- C1 (amended): in the secured variant, an authenticated, well-shaped
status_changed delivery whose deal id matches no stored deal makes the
handler catch the internal exception and respond HTTP 500 with the error
string embedded; no failed WebhookLog write is attempted and no Contact,
Deal, Activity or WebhookLog row changes (the final state equals the initial
one). -/
theorem secured_mutation_error_responds_500
    (hash : String → String) (today nowIso : String)
    (sec : String) (hsec : sec ≠ "")
    (did : String) (hdid : did ≠ "") (ns : Js)
    (us : List User) (cs : List Contact) (ps : List Pipeline) (ss : List PipelineStage)
    (ds : List Deal) (as1 : List Activity) (ls : List WebhookLog) (ws : List Workflow)
    (ts : List TaskRec) (n : Nat) (u : User)
    (huser : us.foldl (fun acc v => match acc with
        | none => some v
        | some w => if v.createdAt < w.createdAt then some v else some w) none = some u)
    (hnodeal : ds.find? (fun d => d.id == did && d.userId == u.id) = none) :
    handleIncomingWebhookS ⟨hash, today, nowIso, Js.str sec⟩
      ⟨[("x-webhook-secret", sec)],
       Js.obj [("event", Js.str "status_changed"),
               ("deal", Js.obj [("id", Js.str did), ("new_status", ns)])]⟩
      ⟨us, cs, ps, ss, ds, as1, ls, ws, ts, n, []⟩ =
    (Except.ok (mkResp 500 (Js.obj [("status", Js.str "error"),
      ("message", Js.str "Internal Server Error: Failed to process webhook"),
      ("error", Js.str ("Deal with ID " ++ did ++ " not found"))])),
     ⟨us, cs, ps, ss, ds, as1, ls, ws, ts, n, []⟩) := by
  unfold handleIncomingWebhookS
  rw [runTry]
  simp [headerGet, List.find?, Js.get, Js.truthy, jsOr, jsMemberOpt, runBind, runPure, runThrow,
    runDbFind, resolveUserS, isProcessed, handleStatusChanged, dealFindFirstByIdUser,
    userFindUnique, userFindFirstByCreatedAt, finishS, runTry, jsTry, jsBeqDef, Js.beq, bne,
    hsec, hdid, huser, hnodeal, Js.toDisplay, JsErr.message, mkResp, M.pure]

/-- Witness for C1's amended theorem at a concrete delivery. -/
theorem secured_mutation_error_responds_500_witness :
    ("sec" : String) ≠ "" ∧ ("nope" : String) ≠ "" ∧
    handleIncomingWebhookS ⟨fun s => s, "d", "t", Js.str "sec"⟩
      ⟨[("x-webhook-secret", "sec")],
       Js.obj [("event", Js.str "status_changed"),
               ("deal", Js.obj [("id", Js.str "nope"), ("new_status", Js.str "Negotiation")])]⟩
      ⟨[⟨"u1", 0⟩], [], [], [], [], [], [], [], [], 0, []⟩ =
    (Except.ok (mkResp 500 (Js.obj [("status", Js.str "error"),
      ("message", Js.str "Internal Server Error: Failed to process webhook"),
      ("error", Js.str ("Deal with ID " ++ "nope" ++ " not found"))])),
     ⟨[⟨"u1", 0⟩], [], [], [], [], [], [], [], [], 0, []⟩) :=
  ⟨by decide, by decide,
   secured_mutation_error_responds_500 (fun s => s) "d" "t" "sec" (by decide) "nope" (by decide)
     (Js.str "Negotiation") [⟨"u1", 0⟩] [] [] [] [] [] [] [] [] 0 ⟨"u1", 0⟩ rfl rfl⟩

/-- C2: in both variants, a delivery whose derived identifier (content hash ++
calendar day in the permissive variant, caller-supplied event_id in the
secured variant) already has a WebhookLog row is answered 200 with the
duplicate message before any Contact, Deal or Activity write: the final
database state equals the initial one, so the second delivery with the same
identifier produces zero additional rows. -/
theorem duplicate_delivery_short_circuits
    (hash : String → String) (today nowIso : String) (sec : String) (hsec : sec ≠ "")
    (hs : List (String × String))
    (bf : List (String × Js)) (P : Js)
    (hP : jsOr ((Js.obj bf).get "data") (jsOr ((Js.obj bf).get "payload") (Js.obj bf)) = P)
    (gf : List (String × Js)) (eid : Js)
    (hev : ((Js.obj gf).get "event").truthy = true)
    (hE : jsOr ((Js.obj gf).get "event_id") (jsMemberOpt ((Js.obj gf).get "data") "event_id") = eid)
    (heid : eid.truthy = true)
    (us : List User) (cs : List Contact) (ps : List Pipeline) (ss : List PipelineStage)
    (ds : List Deal) (as1 : List Activity) (ls : List WebhookLog) (ws : List Workflow)
    (ts : List TaskRec) (n : Nat)
    (hdupP : (ls.find? (fun l => l.idempotencyKey == some (hash (P.stringify ++ today)))).isSome = true)
    (hdupS : (ls.find? (fun l => l.eventId == some eid)).isSome = true) :
    handleIncomingWebhookP ⟨hash, today, nowIso, Js.str sec⟩ ⟨hs, Js.obj bf⟩
        ⟨us, cs, ps, ss, ds, as1, ls, ws, ts, n, []⟩ =
      (Except.ok (mkResp 200 (Js.obj [("status", Js.str "success"),
        ("message", Js.str "Duplicate webhook - already processed"),
        ("idempotencyKey", Js.str (hash (P.stringify ++ today)))])),
       ⟨us, cs, ps, ss, ds, as1, ls, ws, ts, n, []⟩) ∧
    handleIncomingWebhookS ⟨hash, today, nowIso, Js.str sec⟩
        ⟨[("x-webhook-secret", sec)], Js.obj gf⟩
        ⟨us, cs, ps, ss, ds, as1, ls, ws, ts, n, []⟩ =
      (Except.ok (mkResp 200 (Js.obj [("status", Js.str "success"),
        ("message", Js.str "Duplicate event - already processed"),
        ("eventId", eid)])),
       ⟨us, cs, ps, ss, ds, as1, ls, ws, ts, n, []⟩) := by
  constructor
  · unfold handleIncomingWebhookP
    rw [runTry]
    simp [jsMember, generateIdempotencyKey, isWebhookProcessed, webhookLogFindUniqueByKey,
      runBind, runPure, runTry, jsTry, runDbFind, hP, hdupP, M.pure, mkResp]
  · unfold handleIncomingWebhookS
    rw [runTry]
    rw [Js.truthy.eq_def] at hev heid
    simp only [bne] at hev heid
    simp [headerGet, List.find?, Js.truthy, jsBeqDef, Js.beq, bne, hsec, hev, hE, heid,
      isProcessed, webhookLogFindUniqueByEventId, runBind, runPure, runTry, jsTry, runDbFind,
      hdupS, M.pure, mkResp]

def wBodyP : Js := Js.obj [("event", Js.str "x")]

def wKeyP : String := wBodyP.stringify ++ "D"

def wBodyS : Js := Js.obj [("event", Js.str "appointment_booked"), ("event_id", Js.str "E1")]

def wDbDup : DB :=
  ⟨[⟨"u1", 0⟩], [], [], [], [], [],
   [⟨"l1", some wKeyP, none, "/api/v1/webhooks/iclosed", Js.null, 200, "t"⟩,
    ⟨"l2", none, some (Js.str "E1"), "/api/v1/webhooks/iclosed", Js.null, 200, "t"⟩],
   [], [], 0, []⟩

/-- Witness for C2 at concrete duplicate deliveries in each variant. -/
theorem duplicate_delivery_short_circuits_witness :
    (wDbDup.webhookLogs.find? (fun l => l.idempotencyKey == some wKeyP)).isSome = true ∧
    (wDbDup.webhookLogs.find? (fun l => l.eventId == some (Js.str "E1"))).isSome = true ∧
    (handleIncomingWebhookP ⟨fun s => s, "D", "N", Js.str "sec"⟩ ⟨[], wBodyP⟩ wDbDup =
      (Except.ok (mkResp 200 (Js.obj [("status", Js.str "success"),
        ("message", Js.str "Duplicate webhook - already processed"),
        ("idempotencyKey", Js.str wKeyP)])), wDbDup) ∧
     handleIncomingWebhookS ⟨fun s => s, "D", "N", Js.str "sec"⟩
        ⟨[("x-webhook-secret", "sec")], wBodyS⟩ wDbDup =
      (Except.ok (mkResp 200 (Js.obj [("status", Js.str "success"),
        ("message", Js.str "Duplicate event - already processed"),
        ("eventId", Js.str "E1")])), wDbDup)) :=
  ⟨rfl, rfl,
   duplicate_delivery_short_circuits (fun s => s) "D" "N" "sec" (by decide) []
     [("event", Js.str "x")] wBodyP rfl
     [("event", Js.str "appointment_booked"), ("event_id", Js.str "E1")] (Js.str "E1")
     rfl rfl rfl
     [⟨"u1", 0⟩] [] [] [] [] []
     [⟨"l1", some wKeyP, none, "/api/v1/webhooks/iclosed", Js.null, 200, "t"⟩,
      ⟨"l2", none, some (Js.str "E1"), "/api/v1/webhooks/iclosed", Js.null, 200, "t"⟩]
     [] [] 0 rfl rfl⟩

/-- Modelled from the spec (§4.2, resolveStage): first match wins — (1) a
status-name hint matches a stage whose name case-insensitively equals OR
contains it; (2) else an explicit stage id matches; (3) else the pipeline's
first stage; no match across all three falls through to the first stage. -/
def resolveStageSpec (hint : Option String) (stageId : Js) (stages : List PipelineStage) :
    Option PipelineStage :=
  let t1 := match hint with
    | some s => stages.find? (fun st =>
        strLower st.name == strLower s || strIncludes (strLower st.name) (strLower s))
    | none => none
  let t2 := match t1 with
    | some st => some st
    | none => if stageId.truthy then stages.find? (fun st => Js.str st.id == stageId) else none
  match t2 with
  | some st => some st
  | none => stages.head?

/-- The permissive variant's monadic stage-name search, reduced to a pure
`find?` when the status value is a string. -/
theorem findStageRunP (s : String) (l : List PipelineStage) (db : DB) :
    findM (fun stage => do
        let ns ← jsToLower (Js.str s)
        pure (strIncludes (strLower stage.name) ns || strLower stage.name == ns)) l db =
      (Except.ok (l.find? (fun stage =>
        strIncludes (strLower stage.name) (strLower s) || strLower stage.name == strLower s)), db) := by
  induction l with
  | nil => rfl
  | cons st tl ih =>
      by_cases h : (strIncludes (strLower st.name) (strLower s) || strLower st.name == strLower s) = true
      · simp [findM, M.bind, M.pure, jsToLower, List.find?, h, runBind, runPure]
      · simp [findM, M.bind, M.pure, jsToLower, List.find?, h, runBind, runPure]
        simpa [jsToLower] using ih

/-- The secured variant's monadic stage-name search, reduced likewise. -/
theorem findStageRunS (s : String) (l : List PipelineStage) (db : DB) :
    findM (fun stage => do
        let ns ← jsToLower (Js.str s)
        pure (strLower stage.name == ns || strIncludes (strLower stage.name) ns)) l db =
      (Except.ok (l.find? (fun stage =>
        strLower stage.name == strLower s || strIncludes (strLower stage.name) (strLower s))), db) := by
  induction l with
  | nil => rfl
  | cons st tl ih =>
      by_cases h : (strLower st.name == strLower s || strIncludes (strLower st.name) (strLower s)) = true
      · simp [findM, M.bind, M.pure, jsToLower, List.find?, h, runBind, runPure]
      · simp [findM, M.bind, M.pure, jsToLower, List.find?, h, runBind, runPure]
        simpa [jsToLower] using ih

theorem findStageComm (s : String) (l : List PipelineStage) :
    l.find? (fun st => strIncludes (strLower st.name) s || strLower st.name == s) =
    l.find? (fun st => strLower st.name == s || strIncludes (strLower st.name) s) := by
  congr 1
  funext st
  exact Bool.or_comm _ _

def dbNoMatch : DB :=
  ⟨[⟨"u1", 0⟩], [], [⟨"p1", "Pipe", "u1"⟩], [⟨"st1", "New", 1, "p1"⟩],
   [⟨"d1", Js.str "T", Js.num 1, Js.str "st1", "p1", Js.null, "u1", Js.null⟩],
   [], [], [], [], 0, []⟩

def reqNoMatch : Req := ⟨[("x-webhook-secret", "sec")],
  Js.obj [("event", Js.str "status_changed"),
          ("deal", Js.obj [("id", Js.str "d1"), ("new_status", Js.str "Whatever")])]⟩

/-- C4 counterexample: in the secured variant's status_changed lookup, a
target status matching no stage name makes resolution raise an error (the
handler answers 500 with the thrown message and no row changes) instead of
falling through to the pipeline's first stage as claimed. -/
theorem secured_no_stage_match_raises :
    handleIncomingWebhookS envX reqNoMatch dbNoMatch =
      (Except.ok (mkResp 500 (Js.obj [("status", Js.str "error"),
        ("message", Js.str "Internal Server Error: Failed to process webhook"),
        ("error", Js.str "Stage with status \"Whatever\" not found in pipeline")])),
       dbNoMatch) := rfl

/-- C4 (amended): the permissive variant's stage resolution follows the
claimed first-match-wins order — a supplied status name (on a
lead_status_changed event) is matched case-insensitively by equality or
containment in preference to any stageId, else an explicit stage id, else the
pipeline's first stage, with no-match falling through to the first stage
(conjuncts 1 and 2, a refinement against the spec-modelled resolveStageSpec);
the secured variant's status_changed lookup instead raises an error when no
stage name matches (conjunct 3). -/
theorem stage_resolution_precedence
    (dealData dealStageId : Js) (s : String) (hs : s ≠ "")
    (hns : dealData.get "new_status" = Js.str s)
    (stages : List PipelineStage) (db : DB)
    (event2 dealData2 dealStageId2 : Js) (stages2 : List PipelineStage) (db2 : DB)
    (hg : (event2 == Js.str "lead_status_changed" && (dealData2.get "new_status").truthy) = false)
    (env : Env) (pf df : List (String × Js))
    (did : String) (hdid : did ≠ "") (ns2 : String) (hns2 : ns2 ≠ "")
    (hdeal : (Js.obj pf).get "deal" = Js.obj df)
    (hid : (Js.obj df).get "id" = Js.str did)
    (hnst : (Js.obj df).get "new_status" = Js.str ns2)
    (us : List User) (cs : List Contact) (ps : List Pipeline) (ss : List PipelineStage)
    (ds : List Deal) (as1 : List Activity) (ls : List WebhookLog) (ws : List Workflow)
    (ts : List TaskRec) (n : Nat) (u : User) (d : Deal) (p : Pipeline)
    (hfound : ds.find? (fun x => x.id == did && x.userId == u.id) = some d)
    (hpipe : ps.find? (fun x => x.id == d.pipelineId) = some p)
    (hnostage : (ss.filter (fun st => st.pipelineId == p.id)).find? (fun st =>
        strLower st.name == strLower ns2 || strIncludes (strLower st.name) (strLower ns2)) = none) :
    resolveTargetStage (Js.str "lead_status_changed") dealData dealStageId stages db =
      (Except.ok (resolveStageSpec (some s) dealStageId stages), db) ∧
    resolveTargetStage event2 dealData2 dealStageId2 stages2 db2 =
      (Except.ok (resolveStageSpec none dealStageId2 stages2), db2) ∧
    handleStatusChanged env (Js.obj pf) u ⟨us, cs, ps, ss, ds, as1, ls, ws, ts, n, []⟩ =
      (Except.error (JsErr.error ("Stage with status \"" ++ ns2 ++ "\" not found in pipeline")),
       ⟨us, cs, ps, ss, ds, as1, ls, ws, ts, n, []⟩) := by
  refine ⟨?_, ?_, ?_⟩
  · unfold resolveTargetStage
    have hsb : (s == "") = false := beq_eq_false_iff_ne.mpr hs
    have hguard : (Js.str "lead_status_changed" == Js.str "lead_status_changed" &&
        (Js.str s).truthy) = true := by
      simp [jsBeqDef, Js.beq, Js.truthy, bne, hsb]
    simp only [hguard, if_true, hns, runBind, runPure, findStageRunP, findStageComm,
      resolveStageSpec]
    rfl
  · unfold resolveTargetStage
    simp only [hg, Bool.false_eq_true, if_false, runBind, runPure, resolveStageSpec]
    rfl
  · unfold handleStatusChanged
    have h1 : (did == "") = false := beq_eq_false_iff_ne.mpr hdid
    have h2 : (ns2 == "") = false := beq_eq_false_iff_ne.mpr hns2
    simp [hdeal, hid, hnst, jsOr, Js.truthy, h1, h2, jsBeqDef, Js.beq, bne, jsMemberOpt,
      runBind, runPure, runThrow, runDbFind, dealFindFirstByIdUser, pipelineStagesOf,
      hfound, hpipe, findStageRunS, hnostage, Js.toDisplay, M.pure, M.bind]

/-- Witness for C4's amended theorem at concrete inputs. -/
theorem stage_resolution_precedence_witness :
    ("Proposal Sent" : String) ≠ "" ∧
    resolveTargetStage (Js.str "lead_status_changed")
        (Js.obj [("new_status", Js.str "Proposal Sent")]) (Js.str "st1")
        [⟨"st1", "New", 1, "p1"⟩, ⟨"st2", "Proposal Sent", 2, "p1"⟩] dbNoMatch =
      (Except.ok (resolveStageSpec (some "Proposal Sent") (Js.str "st1")
        [⟨"st1", "New", 1, "p1"⟩, ⟨"st2", "Proposal Sent", 2, "p1"⟩]), dbNoMatch) ∧
    resolveTargetStage (Js.str "call_booked") (Js.obj []) Js.undef
        [⟨"st1", "New", 1, "p1"⟩] dbNoMatch =
      (Except.ok (resolveStageSpec none Js.undef [⟨"st1", "New", 1, "p1"⟩]), dbNoMatch) ∧
    handleStatusChanged envX
        (Js.obj [("deal", Js.obj [("id", Js.str "d1"), ("new_status", Js.str "Whatever")])])
        ⟨"u1", 0⟩ dbNoMatch =
      (Except.error (JsErr.error ("Stage with status \"" ++ "Whatever" ++ "\" not found in pipeline")),
       dbNoMatch) := by
  refine ⟨by decide, ?_⟩
  have h := stage_resolution_precedence
    (Js.obj [("new_status", Js.str "Proposal Sent")]) (Js.str "st1") "Proposal Sent" (by decide)
    rfl [⟨"st1", "New", 1, "p1"⟩, ⟨"st2", "Proposal Sent", 2, "p1"⟩] dbNoMatch
    (Js.str "call_booked") (Js.obj []) Js.undef [⟨"st1", "New", 1, "p1"⟩] dbNoMatch rfl
    envX [("deal", Js.obj [("id", Js.str "d1"), ("new_status", Js.str "Whatever")])]
    [("id", Js.str "d1"), ("new_status", Js.str "Whatever")]
    "d1" (by decide) "Whatever" (by decide) rfl rfl rfl
    [⟨"u1", 0⟩] [] [⟨"p1", "Pipe", "u1"⟩] [⟨"st1", "New", 1, "p1"⟩]
    [⟨"d1", Js.str "T", Js.num 1, Js.str "st1", "p1", Js.null, "u1", Js.null⟩]
    [] [] [] [] 0 ⟨"u1", 0⟩
    ⟨"d1", Js.str "T", Js.num 1, Js.str "st1", "p1", Js.null, "u1", Js.null⟩
    ⟨"p1", "Pipe", "u1"⟩ rfl rfl rfl
  exact h

/-- C6: when the contact resolver updates an existing contact (keyed on
email), each of firstName, lastName and phone is overwritten only when the
incoming value is present: any falsy incoming field leaves the stored value
unchanged.  Conjunct 1 is the secured variant's upsertContact, conjunct 2 the
permissive variant's inline contact block (whose name fields come from
parseName); in both, deals are untouched. -/
theorem contact_update_preserves_fields (em fn ln ph : Js) (uid : String)
    (email name phone : Js) (u : User)
    (us : List User) (cs : List Contact) (ps : List Pipeline) (ss : List PipelineStage)
    (ds : List Deal) (as1 : List Activity) (ls : List WebhookLog) (ws : List Workflow)
    (ts : List TaskRec) (n : Nat) (c : Contact)
    (hem : em.truthy = true)
    (hfind : cs.find? (fun x => x.email == em) = some c)
    (hid : cs.find? (fun x => x.id == c.id) = some c)
    (hvalid : validEmail email = true)
    (hfind2 : cs.find? (fun x => x.email == email) = some c) :
    (∃ c1 db1, upsertContact em fn ln ph uid ⟨us, cs, ps, ss, ds, as1, ls, ws, ts, n, []⟩ =
        (Except.ok c1, db1) ∧
      (ph.truthy = false → c1.phone = c.phone) ∧
      (fn.truthy = false → c1.firstName = c.firstName) ∧
      (ln.truthy = false → c1.lastName = c.lastName) ∧
      db1.contacts = cs.map (fun x => if x.id == c.id then c1 else x) ∧
      db1.deals = ds) ∧
    (∃ c2 db2, processContactP email name phone u ⟨us, cs, ps, ss, ds, as1, ls, ws, ts, n, []⟩ =
        (Except.ok (), db2) ∧
      (phone.truthy = false → c2.phone = c.phone) ∧
      ((parseName name).1.truthy = false → c2.firstName = c.firstName) ∧
      ((parseName name).2.truthy = false → c2.lastName = c.lastName) ∧
      db2.contacts = cs.map (fun x => if x.id == c.id then c2 else x) ∧
      db2.deals = ds) := by
  constructor
  · rw [Js.truthy.eq_def] at hem
    have hrun : upsertContact em fn ln ph uid ⟨us, cs, ps, ss, ds, as1, ls, ws, ts, n, []⟩ =
        (Except.ok (⟨c.id, jsOr fn c.firstName, jsOr ln c.lastName, c.email, jsOr ph c.phone, uid⟩ : Contact),
         ⟨us, cs.map (fun x => if x.id == c.id then
            ⟨c.id, jsOr fn c.firstName, jsOr ln c.lastName, c.email, jsOr ph c.phone, uid⟩ else x),
          ps, ss, ds, as1, ls, ws, ts, n, []⟩) := by
      unfold upsertContact
      simp [Js.truthy, hem, contactFindUnique, contactUpdate, runBind, runPure, runThrow,
        runDbFind, runDbOp, hfind, hid, M.pure, M.bind]
    exact ⟨_, _, hrun, fun h => by simp [jsOr, h], fun h => by simp [jsOr, h],
      fun h => by simp [jsOr, h], rfl, rfl⟩
  · have hrun : processContactP email name phone u ⟨us, cs, ps, ss, ds, as1, ls, ws, ts, n, []⟩ =
        (Except.ok (),
         ⟨us, cs.map (fun x => if x.id == c.id then
            ⟨c.id, jsOr (parseName name).1 c.firstName, jsOr (parseName name).2 c.lastName,
             c.email, jsOr phone c.phone, u.id⟩ else x),
          ps, ss, ds, as1, ls, ws, ts, n, []⟩) := by
      unfold processContactP
      simp [hvalid, jsTry, contactFindUnique, contactUpdate, runBind, runPure, runThrow,
        runDbFind, runDbOp, hfind2, hid, M.pure, M.bind, runTry]
    exact ⟨_, _, hrun, fun h => by simp [jsOr, h], fun h => by simp [jsOr, h],
      fun h => by simp [jsOr, h], rfl, rfl⟩

def wContact : Contact := ⟨"c1", Js.str "Ada", Js.str "L", Js.str "a@x.com", Js.str "P1", "u0"⟩

/-- Witness for C6: an existing contact with phone P1, updated by deliveries
carrying no phone and no name. -/
theorem contact_update_preserves_fields_witness :
    (Js.str "a@x.com").truthy = true ∧ validEmail (Js.str "a@x.com") = true ∧
    ((∃ c1 db1, upsertContact (Js.str "a@x.com") Js.undef Js.undef Js.undef "u0"
        ⟨[], [wContact], [], [], [], [], [], [], [], 0, []⟩ = (Except.ok c1, db1) ∧
      (Js.undef.truthy = false → c1.phone = wContact.phone) ∧
      (Js.undef.truthy = false → c1.firstName = wContact.firstName) ∧
      (Js.undef.truthy = false → c1.lastName = wContact.lastName) ∧
      db1.contacts = [wContact].map (fun x => if x.id == wContact.id then c1 else x) ∧
      db1.deals = []) ∧
    (∃ c2 db2, processContactP (Js.str "a@x.com") Js.undef Js.undef ⟨"u0", 0⟩
        ⟨[], [wContact], [], [], [], [], [], [], [], 0, []⟩ = (Except.ok (), db2) ∧
      (Js.undef.truthy = false → c2.phone = wContact.phone) ∧
      ((parseName Js.undef).1.truthy = false → c2.firstName = wContact.firstName) ∧
      ((parseName Js.undef).2.truthy = false → c2.lastName = wContact.lastName) ∧
      db2.contacts = [wContact].map (fun x => if x.id == wContact.id then c2 else x) ∧
      db2.deals = [])) :=
  ⟨rfl, rfl,
   contact_update_preserves_fields (Js.str "a@x.com") Js.undef Js.undef Js.undef "u0"
     (Js.str "a@x.com") Js.undef Js.undef ⟨"u0", 0⟩
     [] [wContact] [] [] [] [] [] [] [] 0 wContact rfl rfl rfl rfl rfl⟩

/-- C9: in the permissive variant, `const dealValue = dealData.value ||
dealValue.amount || ...` references its own binding, so whenever the deal
object is present but its value is falsy, evaluation throws a ReferenceError
(conjunct 1); the deal-processing block's catch swallows it, leaving the
database — in particular every Deal row — untouched by deal processing
(conjunct 2); and a full delivery of such a payload still performs the
contact upsert and the success WebhookLog write and answers 200
(conjunct 3). -/
theorem permissive_falsy_deal_value_aborts_deal
    (dealData : Js) (db0 : DB) (ha : (dealData.get "value").truthy = false)
    (payload email0 : Js) (u0 : User) (db1 : DB)
    (hb1 : (payload.get "deal").truthy = true)
    (hb2 : ((payload.get "deal").get "value").truthy = false)
    (hashF : String → String) (today nowIso : String) (em : String)
    (hva : strIncludes em "@" = true) (hem : em ≠ "")
    (df : List (String × Js)) (hdf : ((Js.obj df).get "value").truthy = false)
    (us : List User) (cs : List Contact) (ps : List Pipeline) (ss : List PipelineStage)
    (ds : List Deal) (as1 : List Activity) (ls : List WebhookLog) (ws : List Workflow)
    (ts : List TaskRec) (n : Nat) (u : User)
    (huser : us.foldl (fun acc v => match acc with
        | none => some v
        | some w => if v.createdAt < w.createdAt then some v else some w) none = some u)
    (hnodup : ls.find? (fun l => l.idempotencyKey ==
        some (hashF ((Js.obj [("email", Js.str em), ("deal", Js.obj df)]).stringify ++ today))) = none)
    (hnoc : cs.find? (fun x => x.email == Js.str em) = none)
    (hnoc2 : cs.any (fun x => x.email == Js.str em) = false)
    (hnolog : ls.any (fun l => l.idempotencyKey ==
        some (hashF ((Js.obj [("email", Js.str em), ("deal", Js.obj df)]).stringify ++ today))) = false) :
    evalDealValue dealData db0 =
      (Except.error (JsErr.referenceError "Cannot access dealValue before initialization"), db0) ∧
    processDealP payload email0 u0 db1 = (Except.ok none, db1) ∧
    handleIncomingWebhookP ⟨hashF, today, nowIso, Js.undef⟩
      ⟨[], Js.obj [("email", Js.str em), ("deal", Js.obj df)]⟩
      ⟨us, cs, ps, ss, ds, as1, ls, ws, ts, n, []⟩ =
    (Except.ok (mkResp 200 (Js.obj [("status", Js.str "success"),
      ("message", Js.str "Webhook received"),
      ("idempotencyKey", Js.str (hashF ((Js.obj [("email", Js.str em), ("deal", Js.obj df)]).stringify ++ today)))])),
     ⟨us, cs ++ [⟨"contact" ++ toString n, Js.null, Js.null, Js.str em, Js.undef, u.id⟩],
      ps, ss, ds, as1,
      ls ++ [⟨"log" ++ toString (n + 1),
        some (hashF ((Js.obj [("email", Js.str em), ("deal", Js.obj df)]).stringify ++ today)),
        none, "/api/v1/webhooks/iclosed", Js.obj [("email", Js.str em), ("deal", Js.obj df)], 200, nowIso⟩],
      ws, ts, n + 2, []⟩) := by
  refine ⟨?_, ?_, ?_⟩
  · unfold evalDealValue
    simp only [ha, Bool.false_eq_true, if_false, runThrow]
  · unfold processDealP
    simp only [hb1, if_true, runTry, runBind, runPure, evalDealValue, hb2, Bool.false_eq_true,
      if_false, runThrow, M.pure]
  · unfold handleIncomingWebhookP
    rw [runTry]
    simp at hnoc2 hnolog
    have hnoc3 : ¬ ∃ x ∈ cs, (x.email == Js.str em) = true := by simpa using hnoc2
    have hnolog3 : ¬ ∃ x ∈ ls, x.idempotencyKey =
        some (hashF ((Js.obj [("email", Js.str em), ("deal", Js.obj df)]).stringify ++ today)) := by
      simpa using hnolog
    have hdealrun : processDealP (Js.obj [("email", Js.str em), ("deal", Js.obj df)]) (Js.str em) u
        ⟨us, cs ++ [⟨"contact" ++ toString n, Js.null, Js.null, Js.str em, Js.undef, u.id⟩],
         ps, ss, ds, as1, ls, ws, ts, n + 1, []⟩ =
        (Except.ok none,
         ⟨us, cs ++ [⟨"contact" ++ toString n, Js.null, Js.null, Js.str em, Js.undef, u.id⟩],
          ps, ss, ds, as1, ls, ws, ts, n + 1, []⟩) := by
      unfold processDealP
      have h1 : ((Js.obj [("email", Js.str em), ("deal", Js.obj df)]).get "deal").truthy = true := by
        simp [Js.get, Js.truthy, List.find?]
      have h2 : (((Js.obj [("email", Js.str em), ("deal", Js.obj df)]).get "deal").get "value").truthy = false := by
        simpa [Js.get, List.find?] using hdf
      simp only [h1, if_true, runTry, runBind, runPure, evalDealValue, h2, Bool.false_eq_true,
        if_false, runThrow, M.pure]
    simp [hdf, hnoc3, hnolog3, hdealrun, jsMember, jsMemberOpt, Js.get, List.find?, jsOr,
      Js.truthy, generateIdempotencyKey, isWebhookProcessed, webhookLogFindUniqueByKey,
      webhookLogCreateKey, logProcessedWebhook, resolveUserP, userFindUnique,
      userFindFirstByCreatedAt, processContactP, validEmail, hva, parseName, contactFindUnique,
      contactCreate, runBind, runPure, runTry, jsTry, runDbFind, runDbOp, huser, hnodup, hnoc,
      hem, M.pure, M.bind, mkResp]

/-- Witness for C9 at a concrete delivery with deal present and value absent. -/
theorem permissive_falsy_deal_value_aborts_deal_witness :
    ((Js.obj []).get "value").truthy = false ∧
    strIncludes "a@x.com" "@" = true ∧
    (evalDealValue (Js.obj []) dbNoMatch =
      (Except.error (JsErr.referenceError "Cannot access dealValue before initialization"), dbNoMatch) ∧
     processDealP (Js.obj [("deal", Js.obj [])]) Js.undef ⟨"u1", 0⟩ dbNoMatch =
      (Except.ok none, dbNoMatch) ∧
     handleIncomingWebhookP ⟨fun s => s, "D", "N", Js.undef⟩
       ⟨[], Js.obj [("email", Js.str "a@x.com"), ("deal", Js.obj [])]⟩
       ⟨[⟨"u1", 0⟩], [], [], [], [], [], [], [], [], 0, []⟩ =
     (Except.ok (mkResp 200 (Js.obj [("status", Js.str "success"),
       ("message", Js.str "Webhook received"),
       ("idempotencyKey", Js.str ((Js.obj [("email", Js.str "a@x.com"), ("deal", Js.obj [])]).stringify ++ "D"))])),
      ⟨[⟨"u1", 0⟩], [⟨"contact" ++ toString 0, Js.null, Js.null, Js.str "a@x.com", Js.undef, "u1"⟩],
       [], [], [], [],
       [⟨"log" ++ toString 1,
         some ((Js.obj [("email", Js.str "a@x.com"), ("deal", Js.obj [])]).stringify ++ "D"),
         none, "/api/v1/webhooks/iclosed",
         Js.obj [("email", Js.str "a@x.com"), ("deal", Js.obj [])], 200, "N"⟩],
       [], [], 2, []⟩)) :=
  ⟨rfl, rfl,
   permissive_falsy_deal_value_aborts_deal (Js.obj []) dbNoMatch rfl
     (Js.obj [("deal", Js.obj [])]) Js.undef ⟨"u1", 0⟩ dbNoMatch rfl rfl
     (fun s => s) "D" "N" "a@x.com" rfl (by decide) [] rfl
     [⟨"u1", 0⟩] [] [] [] [] [] [] [] [] 0 ⟨"u1", 0⟩ rfl rfl rfl rfl rfl⟩

def envK : Env := ⟨fun s => s, "D", "N", Js.undef⟩

def reqNoTitle : Req := ⟨[], Js.obj [("deal", Js.obj [])]⟩

def dbOneUser : DB := ⟨[⟨"u1", 0⟩], [], [], [], [], [], [], [], [], 0, []⟩

def dbAfterNoTitle : DB :=
  ⟨[⟨"u1", 0⟩], [], [], [], [], [],
   [⟨"log" ++ toString 0, some ((Js.obj [("deal", Js.obj [])]).stringify ++ "D"),
     none, "/api/v1/webhooks/iclosed", Js.obj [("deal", Js.obj [])], 200, "N"⟩],
   [], [], 1, []⟩

/-- C10 counterexample: a permissive delivery whose deal object has no title
and no value does NOT skip the WebhookLog write — the dealValue
ReferenceError fires before the title check, the catch swallows it, the
success log is written, and an identical retry IS detected as a duplicate —
contradicting the claim for this input. -/
theorem permissive_no_title_no_value_still_logs :
    handleIncomingWebhookP envK reqNoTitle dbOneUser =
      (Except.ok (mkResp 200 (Js.obj [("status", Js.str "success"),
        ("message", Js.str "Webhook received"),
        ("idempotencyKey", Js.str ((Js.obj [("deal", Js.obj [])]).stringify ++ "D"))])),
       dbAfterNoTitle) ∧
    handleIncomingWebhookP envK reqNoTitle dbAfterNoTitle =
      (Except.ok (mkResp 200 (Js.obj [("status", Js.str "success"),
        ("message", Js.str "Duplicate webhook - already processed"),
        ("idempotencyKey", Js.str ((Js.obj [("deal", Js.obj [])]).stringify ++ "D"))])),
       dbAfterNoTitle) :=
  ⟨rfl, rfl⟩

/-- C10 (amended): a permissive delivery whose deal object carries no
title (none of title/name/Title/Name) but a truthy value returns 200
"Webhook received" immediately after the contact upsert, skipping the
WebhookLog idempotency write (the log list is unchanged); an identical retry
is therefore not detected as a duplicate: it takes the same path again,
re-applying the contact upsert. -/
theorem permissive_missing_title_skips_log
    (hashF : String → String) (today nowIso : String) (em : String)
    (hva : strIncludes em "@" = true) (hem : em ≠ "")
    (df : List (String × Js))
    (ht : (jsOr ((Js.obj df).get "title") (jsOr ((Js.obj df).get "name")
      (jsOr ((Js.obj df).get "Title") ((Js.obj df).get "Name")))).truthy = false)
    (hv : ((Js.obj df).get "value").truthy = true)
    (us : List User) (ps : List Pipeline) (ss : List PipelineStage)
    (ds : List Deal) (as1 : List Activity) (ls : List WebhookLog) (ws : List Workflow)
    (ts : List TaskRec) (n : Nat) (u : User)
    (huser : us.foldl (fun acc v => match acc with
        | none => some v
        | some w => if v.createdAt < w.createdAt then some v else some w) none = some u)
    (hnodup : ls.find? (fun l => l.idempotencyKey ==
        some (hashF ((Js.obj [("email", Js.str em), ("deal", Js.obj df)]).stringify ++ today))) = none) :
    handleIncomingWebhookP ⟨hashF, today, nowIso, Js.undef⟩
      ⟨[], Js.obj [("email", Js.str em), ("deal", Js.obj df)]⟩
      ⟨us, [], ps, ss, ds, as1, ls, ws, ts, n, []⟩ =
    (Except.ok (mkResp 200 (Js.obj [("status", Js.str "success"), ("message", Js.str "Webhook received")])),
     ⟨us, [⟨"contact" ++ toString n, Js.null, Js.null, Js.str em, Js.undef, u.id⟩],
      ps, ss, ds, as1, ls, ws, ts, n + 1, []⟩) ∧
    handleIncomingWebhookP ⟨hashF, today, nowIso, Js.undef⟩
      ⟨[], Js.obj [("email", Js.str em), ("deal", Js.obj df)]⟩
      ⟨us, [⟨"contact" ++ toString n, Js.null, Js.null, Js.str em, Js.undef, u.id⟩],
       ps, ss, ds, as1, ls, ws, ts, n + 1, []⟩ =
    (Except.ok (mkResp 200 (Js.obj [("status", Js.str "success"), ("message", Js.str "Webhook received")])),
     ⟨us, [⟨"contact" ++ toString n, Js.null, Js.null, Js.str em, Js.undef, u.id⟩],
      ps, ss, ds, as1, ls, ws, ts, n + 1, []⟩) := by
  have hdr : ∀ dbX : DB, processDealP (Js.obj [("email", Js.str em), ("deal", Js.obj df)]) (Js.str em) u dbX =
      (Except.ok (some (mkResp 200 (Js.obj [("status", Js.str "success"), ("message", Js.str "Webhook received")]))), dbX) := by
    intro dbX
    unfold processDealP
    have hd : (Js.obj [("email", Js.str em), ("deal", Js.obj df)]).get "deal" = Js.obj df := by
      simp [Js.get, List.find?]
    have h1 : (Js.obj df).truthy = true := rfl
    simp [hd, h1, ht, hv, evalDealValue, runTry, runBind, runPure, M.pure, mkResp]
  have hP : jsOr ((Js.obj [("email", Js.str em), ("deal", Js.obj df)]).get "data")
      (jsOr ((Js.obj [("email", Js.str em), ("deal", Js.obj df)]).get "payload")
        (Js.obj [("email", Js.str em), ("deal", Js.obj df)])) =
      Js.obj [("email", Js.str em), ("deal", Js.obj df)] := by
    simp [jsOr, Js.truthy, Js.get, List.find?]
  have hc : (Js.obj [("email", Js.str em), ("deal", Js.obj df)]).get "contact" = Js.undef := by
    simp [Js.get, List.find?]
  have hemail : jsOr (jsMemberOpt Js.undef "email")
      (jsOr ((Js.obj [("email", Js.str em), ("deal", Js.obj df)]).get "email")
        ((Js.obj [("email", Js.str em), ("deal", Js.obj df)]).get "Email")) = Js.str em := by
    simp [jsOr, jsMemberOpt, Js.truthy, Js.get, List.find?, hem]
  have hname : jsOr (jsMemberOpt Js.undef "name")
      (jsOr ((Js.obj [("email", Js.str em), ("deal", Js.obj df)]).get "name")
        (jsOr ((Js.obj [("email", Js.str em), ("deal", Js.obj df)]).get "Name")
          (jsOr ((Js.obj [("email", Js.str em), ("deal", Js.obj df)]).get "full_name")
            ((Js.obj [("email", Js.str em), ("deal", Js.obj df)]).get "Full_Name")))) = Js.undef := by
    simp [jsOr, jsMemberOpt, Js.truthy, Js.get, List.find?]
  have hphone : jsOr (jsMemberOpt Js.undef "phone")
      (jsOr ((Js.obj [("email", Js.str em), ("deal", Js.obj df)]).get "phone")
        (jsOr ((Js.obj [("email", Js.str em), ("deal", Js.obj df)]).get "Phone")
          (jsOr ((Js.obj [("email", Js.str em), ("deal", Js.obj df)]).get "phone_number")
            ((Js.obj [("email", Js.str em), ("deal", Js.obj df)]).get "Phone_Number")))) = Js.undef := by
    simp [jsOr, jsMemberOpt, Js.truthy, Js.get, List.find?]
  have huid : (Js.obj [("email", Js.str em), ("deal", Js.obj df)]).get "userId" = Js.undef := by
    simp [Js.get, List.find?]
  have hud : (Js.undef).truthy = false := rfl
  have hval : validEmail (Js.str em) = true := by simp [validEmail, hva]
  have h1a : isWebhookProcessed (hashF ((Js.obj [("email", Js.str em), ("deal", Js.obj df)]).stringify ++ today))
      ⟨us, [], ps, ss, ds, as1, ls, ws, ts, n, []⟩ =
      (Except.ok false, ⟨us, [], ps, ss, ds, as1, ls, ws, ts, n, []⟩) := by
    unfold isWebhookProcessed webhookLogFindUniqueByKey
    simp [runTry, runBind, runPure, runDbFind, hnodup, M.pure]
  have h1b : isWebhookProcessed (hashF ((Js.obj [("email", Js.str em), ("deal", Js.obj df)]).stringify ++ today))
      ⟨us, [⟨"contact" ++ toString n, Js.null, Js.null, Js.str em, Js.undef, u.id⟩],
       ps, ss, ds, as1, ls, ws, ts, n + 1, []⟩ =
      (Except.ok false, ⟨us, [⟨"contact" ++ toString n, Js.null, Js.null, Js.str em, Js.undef, u.id⟩],
       ps, ss, ds, as1, ls, ws, ts, n + 1, []⟩) := by
    unfold isWebhookProcessed webhookLogFindUniqueByKey
    simp [runTry, runBind, runPure, runDbFind, hnodup, M.pure]
  have hu1 : ∀ cs2 : List Contact, ∀ n2 : Nat,
      resolveUserP (Js.obj [("email", Js.str em), ("deal", Js.obj df)])
        ⟨us, cs2, ps, ss, ds, as1, ls, ws, ts, n2, []⟩ =
      (Except.ok (Sum.inr u), ⟨us, cs2, ps, ss, ds, as1, ls, ws, ts, n2, []⟩) := by
    intro cs2 n2
    unfold resolveUserP
    simp [huid, Js.truthy, userFindUnique, userFindFirstByCreatedAt, runDbFind, runBind,
      runPure, runTry, huser, M.pure]
  have hc1 : processContactP (Js.str em) Js.undef Js.undef u
      ⟨us, [], ps, ss, ds, as1, ls, ws, ts, n, []⟩ =
      (Except.ok (), ⟨us, [⟨"contact" ++ toString n, Js.null, Js.null, Js.str em, Js.undef, u.id⟩],
       ps, ss, ds, as1, ls, ws, ts, n + 1, []⟩) := by
    unfold processContactP
    simp [hval, parseName, contactFindUnique, contactCreate, runDbFind, runDbOp, runBind,
      runPure, runTry, M.pure, List.find?]
  have hc2 : processContactP (Js.str em) Js.undef Js.undef u
      ⟨us, [⟨"contact" ++ toString n, Js.null, Js.null, Js.str em, Js.undef, u.id⟩],
       ps, ss, ds, as1, ls, ws, ts, n + 1, []⟩ =
      (Except.ok (), ⟨us, [⟨"contact" ++ toString n, Js.null, Js.null, Js.str em, Js.undef, u.id⟩],
       ps, ss, ds, as1, ls, ws, ts, n + 1, []⟩) := by
    unfold processContactP
    simp [hval, parseName, contactFindUnique, contactUpdate, runDbFind, runDbOp, runBind,
      runPure, runTry, M.pure, List.find?, jsBeqDef, Js.beq, jsOr]
  constructor
  · unfold handleIncomingWebhookP
    rw [runTry]
    simp [jsMember, runBind, runPure, M.pure, hP, generateIdempotencyKey, h1a, hc, hemail,
      hname, hphone, hu1, hc1, hdr, mkResp]
  · unfold handleIncomingWebhookP
    rw [runTry]
    simp [jsMember, runBind, runPure, M.pure, hP, generateIdempotencyKey, h1b, hc, hemail,
      hname, hphone, hu1, hc2, hdr, mkResp]

/-- Witness for C10's amended theorem at a concrete no-title delivery. -/
theorem permissive_missing_title_skips_log_witness :
    (jsOr ((Js.obj [("value", Js.num 7)]).get "title") (jsOr ((Js.obj [("value", Js.num 7)]).get "name")
      (jsOr ((Js.obj [("value", Js.num 7)]).get "Title") ((Js.obj [("value", Js.num 7)]).get "Name")))).truthy = false ∧
    ((Js.obj [("value", Js.num 7)]).get "value").truthy = true ∧
    (handleIncomingWebhookP ⟨fun s => s, "D", "N", Js.undef⟩
      ⟨[], Js.obj [("email", Js.str "a@x.com"), ("deal", Js.obj [("value", Js.num 7)])]⟩
      ⟨[⟨"u1", 0⟩], [], [], [], [], [], [], [], [], 0, []⟩ =
    (Except.ok (mkResp 200 (Js.obj [("status", Js.str "success"), ("message", Js.str "Webhook received")])),
     ⟨[⟨"u1", 0⟩], [⟨"contact" ++ toString 0, Js.null, Js.null, Js.str "a@x.com", Js.undef, "u1"⟩],
      [], [], [], [], [], [], [], 0 + 1, []⟩) ∧
    handleIncomingWebhookP ⟨fun s => s, "D", "N", Js.undef⟩
      ⟨[], Js.obj [("email", Js.str "a@x.com"), ("deal", Js.obj [("value", Js.num 7)])]⟩
      ⟨[⟨"u1", 0⟩], [⟨"contact" ++ toString 0, Js.null, Js.null, Js.str "a@x.com", Js.undef, "u1"⟩],
       [], [], [], [], [], [], [], 0 + 1, []⟩ =
    (Except.ok (mkResp 200 (Js.obj [("status", Js.str "success"), ("message", Js.str "Webhook received")])),
     ⟨[⟨"u1", 0⟩], [⟨"contact" ++ toString 0, Js.null, Js.null, Js.str "a@x.com", Js.undef, "u1"⟩],
      [], [], [], [], [], [], [], 0 + 1, []⟩)) :=
  ⟨rfl, rfl,
   permissive_missing_title_skips_log (fun s => s) "D" "N" "a@x.com" rfl (by decide)
     [("value", Js.num 7)] rfl rfl
     [⟨"u1", 0⟩] [] [] [] [] [] [] [] 0 ⟨"u1", 0⟩ rfl rfl⟩

def reqDealCreate : Req :=
  ⟨[], Js.obj [("deal", Js.obj [("title", Js.str "D1"), ("value", Js.num 100)])]⟩

def dbPipe : DB :=
  ⟨[⟨"u1", 0⟩], [], [⟨"p1", "Pipe", "u1"⟩], [⟨"st1", "New", 1, "p1"⟩], [], [], [], [], [], 0, []⟩

/-- C5 counterexample: a permissive delivery creating a fresh deal leaves the
deal's data bag null — the create call supplies no data field — so the new
row carries no provenance tag such as source "iClosed", contrary to the
claim. -/
theorem permissive_created_deal_lacks_source_tag :
    (handleIncomingWebhookP envK reqDealCreate dbPipe).2.deals =
      [⟨"deal" ++ toString 0, Js.str "D1", Js.num 100, Js.str "st1", "p1", Js.null, "u1", Js.null⟩] ∧
    (Js.null : Js) ≠ Js.obj [("source", Js.str "iClosed")] :=
  ⟨rfl, fun h => Js.noConfusion h⟩

/-- C5 (amended): deal upsert identity is (title, pipelineId, userId).
Conjunct 1: when a matching deal exists, the permissive deal block updates
value, stageId and contactId in place on that row — its title, pipelineId
and data bag are unchanged and no second row appears.  Conjunct 2: when no
matching deal exists, a new row is created with the given fields but a null
data bag (no provenance tag on this path).  Conjunct 3: the provenance tag
lives on the secured variant's createDeal, which always creates and stores
data = source or "iClosed". -/
theorem deal_upsert_identity
    (ttl : String) (httl : ttl ≠ "") (vv : Js) (hvt : vv.truthy = true)
    (us : List User) (cs : List Contact) (ps : List Pipeline) (ss : List PipelineStage)
    (ds ds2 : List Deal) (as1 : List Activity) (ls : List WebhookLog) (ws : List Workflow)
    (ts : List TaskRec) (n : Nat) (u : User) (p : Pipeline) (st : PipelineStage)
    (stl : List PipelineStage) (d : Deal)
    (hp : ps.find? (fun x => x.userId == u.id) = some p)
    (hst : ss.filter (fun x => x.pipelineId == p.id) = st :: stl)
    (hfoundD : ds.find? (fun x => x.title == Js.str ttl && x.pipelineId == p.id && x.userId == u.id) = some d)
    (hidD : ds.find? (fun x => x.id == d.id) = some d)
    (hnofound : ds2.find? (fun x => x.title == Js.str ttl && x.pipelineId == p.id && x.userId == u.id) = none)
    (sid pid : String) (hsid : sid ≠ "") (hpid : pid ≠ "")
    (title2 value2 contactId2 source2 : Js) (uid2 : String) (db3 : DB) (hf3 : db3.faults = []) :
    processDealP (Js.obj [("deal", Js.obj [("title", Js.str ttl), ("value", vv)])]) Js.undef u
        ⟨us, cs, ps, ss, ds, as1, ls, ws, ts, n, []⟩ =
      (Except.ok none,
       ⟨us, cs, ps, ss, ds.map (fun x => if x.id == d.id then
          ⟨d.id, d.title, vv, Js.str st.id, d.pipelineId, Js.null, u.id, d.data⟩ else x),
        as1, ls, ws, ts, n, []⟩) ∧
    processDealP (Js.obj [("deal", Js.obj [("title", Js.str ttl), ("value", vv)])]) Js.undef u
        ⟨us, cs, ps, ss, ds2, as1, ls, ws, ts, n, []⟩ =
      (Except.ok none,
       ⟨us, cs, ps, ss,
        ds2 ++ [⟨"deal" ++ toString n, Js.str ttl, vv, Js.str st.id, p.id, Js.null, u.id, Js.null⟩],
        as1, ls, ws, ts, n + 1, []⟩) ∧
    createDealS title2 value2 (Js.str sid) (Js.str pid) contactId2 source2 uid2 db3 =
      (Except.ok (⟨"deal" ++ toString db3.nextId, title2, jsOr value2 (Js.num 0), Js.str sid, pid,
         contactId2, uid2, Js.obj [("source", jsOr source2 (Js.str "iClosed"))]⟩ : Deal),
       { db3 with deals := db3.deals ++ [⟨"deal" ++ toString db3.nextId, title2,
          jsOr value2 (Js.num 0), Js.str sid, pid, contactId2, uid2,
          Js.obj [("source", jsOr source2 (Js.str "iClosed"))]⟩], nextId := db3.nextId + 1 }) := by
  have hT : (jsOr ((Js.obj [("title", Js.str ttl), ("value", vv)]).get "title")
      (jsOr ((Js.obj [("title", Js.str ttl), ("value", vv)]).get "name")
        (jsOr ((Js.obj [("title", Js.str ttl), ("value", vv)]).get "Title")
          ((Js.obj [("title", Js.str ttl), ("value", vv)]).get "Name")))) = Js.str ttl := by
    simp [jsOr, Js.get, List.find?, Js.truthy, httl]
  rw [Js.truthy.eq_def] at hvt
  refine ⟨?_, ?_, ?_⟩
  · unfold processDealP
    have hd : (Js.obj [("deal", Js.obj [("title", Js.str ttl), ("value", vv)])]).get "deal" =
        Js.obj [("title", Js.str ttl), ("value", vv)] := by simp [Js.get, List.find?]
    have hres : ∀ dbX : DB, resolveTargetStage Js.undef
        (Js.obj [("title", Js.str ttl), ("value", vv)]) Js.undef
        (st :: stl) dbX = (Except.ok (some st), dbX) := by
      intro dbX
      unfold resolveTargetStage
      simp [Js.get, List.find?, jsBeqDef, Js.beq, jsOr, Js.truthy, runBind, runPure, M.pure]
    simp [hd, hT, Js.truthy, httl, evalDealValue, hvt, jsOr, Js.get, List.find?, runTry,
      runBind, runPure, M.pure, pipelineFindFirstByUser, pipelineStagesOf, hp, hst, hres,
      stageIdOf, contactIdJs, dealFindFirstTitle, hfoundD, dealUpdate, hidD, runDbFind,
      runDbOp]
  · unfold processDealP
    have hd : (Js.obj [("deal", Js.obj [("title", Js.str ttl), ("value", vv)])]).get "deal" =
        Js.obj [("title", Js.str ttl), ("value", vv)] := by simp [Js.get, List.find?]
    have hres : ∀ dbX : DB, resolveTargetStage Js.undef
        (Js.obj [("title", Js.str ttl), ("value", vv)]) Js.undef
        (st :: stl) dbX = (Except.ok (some st), dbX) := by
      intro dbX
      unfold resolveTargetStage
      simp [Js.get, List.find?, jsBeqDef, Js.beq, jsOr, Js.truthy, runBind, runPure, M.pure]
    simp [hd, hT, Js.truthy, httl, evalDealValue, hvt, jsOr, Js.get, List.find?, runTry,
      runBind, runPure, M.pure, pipelineFindFirstByUser, pipelineStagesOf, hp, hst, hres,
      stageIdOf, contactIdJs, dealFindFirstTitle, hnofound, dealCreate, runDbFind, runDbOp]
  · unfold createDealS
    have h1 : (Js.str pid).truthy = true := by simp [Js.truthy, hpid]
    have h2 : (Js.str sid).truthy = true := by simp [Js.truthy, hsid]
    simp [h1, h2, dealCreate, runBind, runPure, M.pure, runDbOp, hf3]

def dX : Deal := ⟨"dX", Js.str "D1", Js.num 5, Js.str "st1", "p1", Js.null, "u1", Js.null⟩

/-- Witness for C5's amended theorem at concrete deliveries. -/
theorem deal_upsert_identity_witness :
    ("D1" : String) ≠ "" ∧ (Js.num 100).truthy = true ∧
    (processDealP (Js.obj [("deal", Js.obj [("title", Js.str "D1"), ("value", Js.num 100)])]) Js.undef ⟨"u1", 0⟩
        ⟨[⟨"u1", 0⟩], [], [⟨"p1", "Pipe", "u1"⟩], [⟨"st1", "New", 1, "p1"⟩], [dX], [], [], [], [], 7, []⟩ =
      (Except.ok none,
       ⟨[⟨"u1", 0⟩], [], [⟨"p1", "Pipe", "u1"⟩], [⟨"st1", "New", 1, "p1"⟩],
        [dX].map (fun x => if x.id == dX.id then
          ⟨dX.id, dX.title, Js.num 100, Js.str "st1", dX.pipelineId, Js.null, "u1", dX.data⟩ else x),
        [], [], [], [], 7, []⟩) ∧
     processDealP (Js.obj [("deal", Js.obj [("title", Js.str "D1"), ("value", Js.num 100)])]) Js.undef ⟨"u1", 0⟩
        ⟨[⟨"u1", 0⟩], [], [⟨"p1", "Pipe", "u1"⟩], [⟨"st1", "New", 1, "p1"⟩], [], [], [], [], [], 7, []⟩ =
      (Except.ok none,
       ⟨[⟨"u1", 0⟩], [], [⟨"p1", "Pipe", "u1"⟩], [⟨"st1", "New", 1, "p1"⟩],
        [] ++ [⟨"deal" ++ toString 7, Js.str "D1", Js.num 100, Js.str "st1", "p1", Js.null, "u1", Js.null⟩],
        [], [], [], [], 7 + 1, []⟩) ∧
     createDealS (Js.str "T2") Js.undef (Js.str "s1") (Js.str "p0") Js.null Js.undef "u2" dbPipe =
      (Except.ok (⟨"deal" ++ toString dbPipe.nextId, Js.str "T2", jsOr Js.undef (Js.num 0), Js.str "s1", "p0",
         Js.null, "u2", Js.obj [("source", jsOr Js.undef (Js.str "iClosed"))]⟩ : Deal),
       { dbPipe with deals := dbPipe.deals ++ [⟨"deal" ++ toString dbPipe.nextId, Js.str "T2",
          jsOr Js.undef (Js.num 0), Js.str "s1", "p0", Js.null, "u2",
          Js.obj [("source", jsOr Js.undef (Js.str "iClosed"))]⟩], nextId := dbPipe.nextId + 1 })) :=
  ⟨by decide, rfl,
   deal_upsert_identity "D1" (by decide) (Js.num 100) rfl
     [⟨"u1", 0⟩] [] [⟨"p1", "Pipe", "u1"⟩] [⟨"st1", "New", 1, "p1"⟩]
     [dX] [] [] [] [] [] 7 ⟨"u1", 0⟩ ⟨"p1", "Pipe", "u1"⟩ ⟨"st1", "New", 1, "p1"⟩ []
     dX rfl rfl rfl rfl rfl "s1" "p0" (by decide) (by decide)
     (Js.str "T2") Js.undef Js.null Js.undef "u2" dbPipe rfl⟩

/-- C8: in the secured variant, every status_changed delivery that finds its
deal and matches a stage first persists the stage update, then throws a
TypeError while building the DEAL_STATUS_CHANGED activity data (the note
reads deal.stage.name but the deal was loaded with only the pipeline
relation, so deal.stage is undefined); consequently the final state carries
the new stageId while activities and webhook logs are unchanged — no
idempotency record — and the handler answers HTTP 500: the mutation is not
atomic with the reported error. -/
theorem secured_status_change_not_atomic
    (hash : String → String) (today nowIso : String)
    (sec : String) (hsec : sec ≠ "")
    (did : String) (hdid : did ≠ "") (ns : String) (hns : ns ≠ "")
    (eidS : String) (heid : eidS ≠ "")
    (us : List User) (cs : List Contact) (ps : List Pipeline) (ss : List PipelineStage)
    (ds : List Deal) (as1 : List Activity) (ls : List WebhookLog) (ws : List Workflow)
    (ts : List TaskRec) (n : Nat) (u : User) (d : Deal) (p : Pipeline) (st : PipelineStage)
    (huser : us.foldl (fun acc v => match acc with
        | none => some v
        | some w => if v.createdAt < w.createdAt then some v else some w) none = some u)
    (hnodupE : ls.find? (fun l => l.eventId == some (Js.str eidS)) = none)
    (hfoundD : ds.find? (fun x => x.id == did && x.userId == u.id) = some d)
    (hpipe : ps.find? (fun x => x.id == d.pipelineId) = some p)
    (hmatch : (ss.filter (fun x => x.pipelineId == p.id)).find? (fun x =>
        strLower x.name == strLower ns || strIncludes (strLower x.name) (strLower ns)) = some st)
    (hidD : ds.find? (fun x => x.id == did) = some d) :
    handleIncomingWebhookS ⟨hash, today, nowIso, Js.str sec⟩
      ⟨[("x-webhook-secret", sec)],
       Js.obj [("event", Js.str "status_changed"), ("event_id", Js.str eidS),
               ("deal", Js.obj [("id", Js.str did), ("new_status", Js.str ns)])]⟩
      ⟨us, cs, ps, ss, ds, as1, ls, ws, ts, n, []⟩ =
    (Except.ok (mkResp 500 (Js.obj [("status", Js.str "error"),
      ("message", Js.str "Internal Server Error: Failed to process webhook"),
      ("error", Js.str "Cannot read properties of undefined (reading name)")])),
     ⟨us, cs, ps, ss,
      ds.map (fun x => if x.id == d.id then
        ⟨d.id, d.title, d.value, Js.str st.id, d.pipelineId, d.contactId, d.userId, d.data⟩ else x),
      as1, ls, ws, ts, n, []⟩) := by
  have heidb : (eidS == "") = false := beq_eq_false_iff_ne.mpr heid
  have hdup : isProcessed (Js.str eidS) ⟨us, cs, ps, ss, ds, as1, ls, ws, ts, n, []⟩ =
      (Except.ok false, ⟨us, cs, ps, ss, ds, as1, ls, ws, ts, n, []⟩) := by
    unfold isProcessed webhookLogFindUniqueByEventId
    simp [runTry, runBind, runPure, runDbFind, hnodupE, Js.truthy, heidb, heid, M.pure]
  have hu : resolveUserS (Js.obj [("event", Js.str "status_changed"), ("event_id", Js.str eidS),
        ("deal", Js.obj [("id", Js.str did), ("new_status", Js.str ns)])])
      ⟨us, cs, ps, ss, ds, as1, ls, ws, ts, n, []⟩ =
      (Except.ok (Sum.inr u), ⟨us, cs, ps, ss, ds, as1, ls, ws, ts, n, []⟩) := by
    unfold resolveUserS
    simp [Js.get, List.find?, Js.truthy, userFindUnique, userFindFirstByCreatedAt, runDbFind,
      runBind, runPure, runTry, huser, M.pure]
  have hsc : handleStatusChanged ⟨hash, today, nowIso, Js.str sec⟩
      (Js.obj [("event", Js.str "status_changed"), ("event_id", Js.str eidS),
        ("deal", Js.obj [("id", Js.str did), ("new_status", Js.str ns)])]) u
      ⟨us, cs, ps, ss, ds, as1, ls, ws, ts, n, []⟩ =
      (Except.error (JsErr.typeError "Cannot read properties of undefined (reading name)"),
       ⟨us, cs, ps, ss,
        ds.map (fun x => if x.id == d.id then
          ⟨d.id, d.title, d.value, Js.str st.id, d.pipelineId, d.contactId, d.userId, d.data⟩ else x),
        as1, ls, ws, ts, n, []⟩) := by
    unfold handleStatusChanged
    have h1 : (did == "") = false := beq_eq_false_iff_ne.mpr hdid
    have h2 : (ns == "") = false := beq_eq_false_iff_ne.mpr hns
    simp [Js.get, List.find?, jsOr, jsMemberOpt, Js.truthy, h1, h2, jsBeqDef, Js.beq, bne,
      runBind, runPure, runThrow, runDbFind, runDbOp, dealFindFirstByIdUser, pipelineStagesOf,
      hfoundD, hpipe, findStageRunS, hmatch, hidD, updateDealStage, dealUpdateStage,
      LoadedDeal.stageRead, jsMember, Js.toDisplay, M.pure, M.bind, logActivity, activityCreate]
  unfold handleIncomingWebhookS
  rw [runTry]
  have hsecb : (sec == "") = false := beq_eq_false_iff_ne.mpr hsec
  simp [headerGet, List.find?, Js.get, Js.truthy, jsOr, jsMemberOpt, jsBeqDef, Js.beq, bne,
    hsecb, heidb, hdup, hu, hsc, runBind, runPure, runTry, jsTry, JsErr.message, M.pure, mkResp]

def dStatus : Deal := ⟨"d1", Js.str "Deal", Js.num 5, Js.str "st1", "p1", Js.null, "u1", Js.null⟩

/-- Witness for C8 at a concrete status_changed delivery. -/
theorem secured_status_change_not_atomic_witness :
    ("sec" : String) ≠ "" ∧ ("d1" : String) ≠ "" ∧ ("Negotiation" : String) ≠ "" ∧
    handleIncomingWebhookS ⟨fun s => s, "D", "N", Js.str "sec"⟩
      ⟨[("x-webhook-secret", "sec")],
       Js.obj [("event", Js.str "status_changed"), ("event_id", Js.str "E1"),
               ("deal", Js.obj [("id", Js.str "d1"), ("new_status", Js.str "Negotiation")])]⟩
      ⟨[⟨"u1", 0⟩], [], [⟨"p1", "Pipe", "u1"⟩],
       [⟨"st1", "New", 1, "p1"⟩, ⟨"st2", "Negotiation", 2, "p1"⟩],
       [dStatus], [], [], [], [], 0, []⟩ =
    (Except.ok (mkResp 500 (Js.obj [("status", Js.str "error"),
      ("message", Js.str "Internal Server Error: Failed to process webhook"),
      ("error", Js.str "Cannot read properties of undefined (reading name)")])),
     ⟨[⟨"u1", 0⟩], [], [⟨"p1", "Pipe", "u1"⟩],
      [⟨"st1", "New", 1, "p1"⟩, ⟨"st2", "Negotiation", 2, "p1"⟩],
      [dStatus].map (fun x => if x.id == dStatus.id then
        ⟨dStatus.id, dStatus.title, dStatus.value, Js.str "st2", dStatus.pipelineId,
         dStatus.contactId, dStatus.userId, dStatus.data⟩ else x),
      [], [], [], [], 0, []⟩) :=
  ⟨by decide, by decide, by decide,
   secured_status_change_not_atomic (fun s => s) "D" "N" "sec" (by decide) "d1" (by decide)
     "Negotiation" (by decide) "E1" (by decide)
     [⟨"u1", 0⟩] [] [⟨"p1", "Pipe", "u1"⟩]
     [⟨"st1", "New", 1, "p1"⟩, ⟨"st2", "Negotiation", 2, "p1"⟩]
     [dStatus] [] [] [] [] 0 ⟨"u1", 0⟩ dStatus ⟨"p1", "Pipe", "u1"⟩
     ⟨"st2", "Negotiation", 2, "p1"⟩ rfl rfl rfl rfl rfl rfl⟩
